import Mathlib

/-!
Verification of the reconciliation engine of the GSheet→GCP calendar sync
service (`main.py`).  The Python program is shallowly embedded: datetimes are
abstract instants (`Nat`) with an injective ISO rendering, the SQLite
`synced_events` table is a list of records with the two UNIQUE constraints
made explicit, the Google Calendar is a list of entries with a fresh-id
counter, and every outbound-call failure source that the claims touch
(calendar `get` on a vanished entry, repeated `insert` failures) is modelled
explicitly.  `sync_events` is embedded as a pure state-passing function over
the outputs of the sheet reader, exactly following the control flow of
`CalendarSyncService.sync_events`.
-/

/-- Models `datetime.isoformat()`: an injective rendering of an abstract
instant into a string.  The concrete ISO text is produced by the datetime
library (an external collaborator); all the program needs from it is that it
is deterministic, injective, and contains no `|` separator character. -/
def isoStr (t : Nat) : String := String.mk (List.replicate t 'I')

/-- The whitespace set of Python's `str.strip()` (the characters that occur
in the data at hand). -/
def pySpace (c : Char) : Bool := c == ' ' || c == '\t' || c == '\n' || c == '\r'

/-- Python `str.strip()` on the character list. -/
def pyStripList (l : List Char) : List Char :=
  ((l.dropWhile pySpace).reverse.dropWhile pySpace).reverse

/-- Python `str.strip()`. -/
def pyStrip (s : String) : String := String.mk (pyStripList s.data)

/-- Python `str.lower()` on one character (ASCII; the case mapping of the
strings in play). -/
def pyLowerChar (c : Char) : Char :=
  if 'A' ≤ c && c ≤ 'Z' then Char.ofNat (c.toNat + 32) else c

/-- Python `str.lower()`. -/
def pyLower (s : String) : String := String.mk (s.data.map pyLowerChar)

/-- Python `str.upper()` on one character (ASCII). -/
def pyUpperChar (c : Char) : Char :=
  if 'a' ≤ c && c ≤ 'z' then Char.ofNat (c.toNat - 32) else c

/-- Python `str.upper()`. -/
def pyUpper (s : String) : String := String.mk (s.data.map pyUpperChar)

/-- Python `str.replace(pat, rep)` on character lists: leftmost-first,
non-overlapping, all occurrences.  The first argument is fuel (one unit per
consumed character; the callers' patterns are all non-empty). -/
def pyReplaceList (pat rep : List Char) : Nat → List Char → List Char
  | 0, l => l
  | _ + 1, [] => []
  | fuel + 1, c :: rest =>
    if pat.isPrefixOf (c :: rest) then
      rep ++ pyReplaceList pat rep fuel (List.drop pat.length (c :: rest))
    else c :: pyReplaceList pat rep fuel rest

/-- Python `str.replace(pat, rep)`. -/
def pyReplace (s pat rep : String) : String :=
  String.mk (pyReplaceList pat.data rep.data s.data.length s.data)

/-- `timedelta(days=1)` measured in the abstract instant units (seconds). -/
def dayLen : Nat := 86400

/-- `Config.MAX_DESCRIPTION_LENGTH` -/
def MAX_DESCRIPTION_LENGTH : Nat := 8000

/-- The `CalendarEvent` dataclass (`main.py` lines 60-79).  `unique_id` is
derived by `__post_init__` and is represented by the function `unique_id`
below; `validation_errors` is recomputed by `is_valid` and not stored. -/
structure CalendarEvent where
  sheet_id : String
  name : String
  start_time : Nat
  end_time : Nat
  description : String
  event_type : String
  color : String
  focus_time : Bool
  row_number : Nat
deriving Repr, DecidableEq

/-- `__post_init__`: `unique_id = f"{sheet_id}_{start_time.isoformat()}"`. -/
def unique_id (e : CalendarEvent) : String :=
  e.sheet_id ++ "_" ++ isoStr e.start_time

/-- `CalendarEvent.is_valid` (lines 81-101): name non-blank, end after start
(start/end can never be missing here since they are parsed instants). -/
def is_valid (e : CalendarEvent) : Bool :=
  !(pyStrip e.name == "") && decide (e.start_time < e.end_time)

/-- The normalized name `name.strip().lower()` entering the content hash and
content key. -/
def normName (e : CalendarEvent) : String := pyLower (pyStrip e.name)

/-- `CalendarEvent.content_hash` (lines 150-154).  The code returns the
SHA-256 hex digest of this string; SHA-256 is a fixed deterministic
(collision-resistant) function of its input, so the digest is modelled by its
preimage string: two digests are equal exactly when the content strings are. -/
def content_hash (e : CalendarEvent) : String :=
  normName e ++ "|" ++ isoStr e.start_time ++ "|" ++ isoStr e.end_time

/-- `CalendarEvent.content_key` (lines 156-158). -/
def content_key (e : CalendarEvent) : String :=
  normName e ++ "|" ++ isoStr e.start_time

/-- One pass of `re.sub(r'<[^>]+>', '', s)` over the character list: at each
`<`, the leftmost match runs to the first following `>` provided at least one
character stands between them; matched spans are removed, everything else is
copied.  The first argument is fuel (one unit per consumed character). -/
def stripTagsAux : Nat → List Char → List Char
  | 0, l => l
  | _ + 1, [] => []
  | fuel + 1, c :: rest =>
    if c = '<' then
      match rest.findIdx? (fun d => d == '>') with
      | some 0 => c :: stripTagsAux fuel rest
      | some (i + 1) => stripTagsAux fuel (rest.drop (i + 2))
      | none => c :: stripTagsAux fuel rest
    else c :: stripTagsAux fuel rest

/-- `re.sub(r'<[^>]+>', '', s)` over a character list. -/
def stripTagsList (l : List Char) : List Char := stripTagsAux l.length l

/-- The Google Calendar event payload, restricted to the fields the program
produces (`to_google_event`). -/
structure GoogleEvent where
  summary : String
  startIso : String
  endIso : String
  description : Option String
  colorId : Option String
deriving Repr, DecidableEq

/-- The closed `EventType` → colorId map built at lines 128-133. -/
def eventTypeColor (et : String) : Option String :=
  if et = "DEFAULT" then some "1"
  else if et = "FOCUS_TIME" then some "2"
  else if et = "OUT_OF_OFFICE" then some "4"
  else if et = "WORKING_LOCATION" then some "5"
  else none

/-- Models `str(int(float(color)))` for the numeric color override.  Only
integer-literal color strings are modelled (the fractional-float truncation
of the Python runtime is a collaborator detail no claim depends on);
non-numeric strings raise `ValueError` in the code, i.e. yield `none` here. -/
def parseColorOverride (c : String) : Option Nat := c.toNat?

/-- `CalendarEvent.to_google_event` (lines 103-148): summary is the stripped
name, start/end are ISO strings; a non-empty description is HTML-tag
stripped, entity-decoded in the source's exact order, trimmed and truncated
to 8000 characters; the color comes from the event-type map, falling back to
a numeric override in range 1-11. -/
def to_google_event (e : CalendarEvent) : GoogleEvent :=
  let base : GoogleEvent :=
    { summary := pyStrip e.name, startIso := isoStr e.start_time,
      endIso := isoStr e.end_time, description := none, colorId := none }
  let withDesc :=
    if e.description = "" then base
    else
      let c1 := String.mk (stripTagsList e.description.data)
      let c2 := pyReplace (pyReplace (pyReplace (pyReplace (pyReplace c1
          "&amp;" "&") "&lt;" "<") "&gt;" ">") "&nbsp;" " ") "<br>" "\n"
      let c3 := pyStrip c2
      if c3 = "" then base
      else { base with
               description := some (String.mk (c3.data.take MAX_DESCRIPTION_LENGTH)) }
  let et := if e.event_type = "" then "DEFAULT"
            else pyReplace (pyUpper e.event_type) " " "_"
  match eventTypeColor et with
  | some v => { withDesc with colorId := some v }
  | none =>
    if e.color = "" then withDesc
    else
      match parseColorOverride e.color with
      | some n =>
        if 1 ≤ n ∧ n ≤ 11 then { withDesc with colorId := some (toString n) }
        else withDesc
      | none => withDesc

/-- One row of the `synced_events` table (schema at lines 292-306); the two
UNIQUE constraints (`unique_event_id`, `calendar_event_id`) are the
`storeInv` invariant below.  Calendar entry identifiers are abstract (`Nat`). -/
structure SyncRecord where
  sheet_event_id : String
  unique_event_id : String
  calendar_event_id : Nat
  event_hash : String
  event_name : String
  start_time : String
  end_time : String
deriving Repr, DecidableEq

/-- `SELECT ... WHERE unique_event_id = ?` (lines 616-620). -/
def lookupRecord (store : List SyncRecord) (uid : String) : Option SyncRecord :=
  store.find? (fun r => r.unique_event_id == uid)

/-- Plain `INSERT INTO synced_events` (lines 692-699): raises
`IntegrityError` (`none`) when either UNIQUE constraint would be violated. -/
def insertRecord (store : List SyncRecord) (r : SyncRecord) :
    Option (List SyncRecord) :=
  if store.any (fun x => x.unique_event_id == r.unique_event_id
      || x.calendar_event_id == r.calendar_event_id) then none
  else some (store ++ [r])

/-- `INSERT OR REPLACE INTO synced_events` (lines 674-681): SQLite deletes
every row conflicting on either UNIQUE column, then inserts the new row. -/
def upsertRecord (store : List SyncRecord) (r : SyncRecord) :
    List SyncRecord :=
  (store.filter (fun x => !(x.unique_event_id == r.unique_event_id)
      && !(x.calendar_event_id == r.calendar_event_id))) ++ [r]

/-- `UPDATE synced_events SET event_hash=?, ... WHERE unique_event_id = ?`
(lines 648-656). -/
def updateRecord (store : List SyncRecord) (uid hash nm stIso enIso : String) :
    List SyncRecord :=
  store.map (fun x =>
    if x.unique_event_id == uid then
      { x with event_hash := hash, event_name := nm,
               start_time := stIso, end_time := enIso }
    else x)

/-- `DELETE FROM synced_events WHERE unique_event_id = ?` (lines 665-667). -/
def deleteRecord (store : List SyncRecord) (uid : String) : List SyncRecord :=
  store.filter (fun x => !(x.unique_event_id == uid))

/-- The two table invariants enforced by `UNIQUE(unique_event_id)` and
`UNIQUE(calendar_event_id)`. -/
def storeInv (store : List SyncRecord) : Prop :=
  store.Pairwise (fun a b =>
    a.unique_event_id ≠ b.unique_event_id ∧
    a.calendar_event_id ≠ b.calendar_event_id)

/-- A live calendar entry as the engine observes it: identifier, summary,
start/end instants and the cancelled status flag. -/
structure CalEntry where
  id : Nat
  summary : String
  start : Nat
  endTime : Nat
  cancelled : Bool
deriving Repr, DecidableEq

/-- The calendar collaborator's state: current entries plus the counter the
service draws fresh entry identifiers from. -/
structure Calendar where
  entries : List CalEntry
  nextId : Nat
deriving Repr, DecidableEq

/-- `events().get(eventId=cal_id)`: `none` models the raised exception when
the entry no longer exists. -/
def calendarGet (cal : Calendar) (cid : Nat) : Option CalEntry :=
  cal.entries.find? (fun en => en.id == cid)

/-- `events().update(...)` with the payload of `to_google_event` (the fields
the snapshot/claims observe: summary and times). -/
def calendarUpdate (cal : Calendar) (cid : Nat) (e : CalendarEvent) : Calendar :=
  { cal with entries := cal.entries.map (fun en =>
      if en.id == cid then
        { en with summary := pyStrip e.name, start := e.start_time,
                  endTime := e.end_time }
      else en) }

/-- The snapshot key of lines 523-534: stripped lowercased summary joined
with the normalized ISO start (parsing an ISO string and re-rendering it is
the identity on the injective rendering used here). -/
def snapKey (en : CalEntry) : String :=
  pyLower (pyStrip en.summary) ++ "|" ++ isoStr en.start

/-- `get_existing_calendar_events` (lines 499-545): every non-cancelled entry
of the window with a non-blank summary, indexed by `snapKey`.  The window
filter models the `timeMin`/`timeMax` parameters of the list call. -/
def get_existing_calendar_events (cal : Calendar) (tmin tmax : Nat) :
    List (String × Nat) :=
  (cal.entries.filter (fun en => !en.cancelled
      && decide (tmin ≤ en.start) && decide (en.start ≤ tmax)
      && !(pyLower (pyStrip en.summary) == ""))).map (fun en => (snapKey en, en.id))

/-- Python dict lookup where later writes overwrite earlier ones
(last-write-wins, line 531). -/
def lookupSnap (snap : List (String × Nat)) (k : String) : Option Nat :=
  snap.foldl (fun acc p => if p.1 == k then some p.2 else acc) none

/-- The loop of `create_event_with_retry` (lines 547-568) at a given attempt
number with a given number of remaining loop iterations
(`remaining = max_retries - attempt`).  `plan` lists the error message of
each initially failing insert attempt (attempts beyond the plan succeed);
the result pairs the outcome (`none` models falling off the loop and
returning `None`) with the list of sleeps taken, each `base × attemptNumber`;
on the last failing attempt the error is re-raised. -/
def create_event_with_retry_go (plan : List String) (base freshId : Nat) :
    Nat → Nat → Option (Except String Nat) × List Nat
  | _, 0 => (none, [])
  | attempt, remaining + 1 =>
    match plan.get? attempt with
    | none => (some (Except.ok freshId), [])
    | some msg =>
      if remaining = 0 then (some (Except.error msg), [])
      else
        let r := create_event_with_retry_go plan base freshId (attempt + 1)
          remaining
        (r.1, base * (attempt + 1) :: r.2)

/-- `create_event_with_retry` (lines 547-568), starting at attempt 0. -/
def create_event_with_retry (plan : List String)
    (max_retries base freshId : Nat) : Option (Except String Nat) × List Nat :=
  create_event_with_retry_go plan base freshId 0 max_retries

/-- One row of the `failed_events` table (the fields the claims observe). -/
structure FailedRow where
  row_number : Nat
  event_name : String
  error_message : String
deriving Repr, DecidableEq

/-- One row of the `sync_log` run-history table (lines 736-743). -/
structure SyncLogEntry where
  events_created : Nat
  events_updated : Nat
  events_skipped : Nat
  events_deleted : Nat
  errors : Nat
  trigger_source : String
  status : String
  total_processed : Nat
deriving Repr, DecidableEq

/-- The mutable state `sync_events` acts on: the sync store, the two
append-only logs the claims observe, and the calendar collaborator. -/
structure SyncState where
  synced_events : List SyncRecord
  failed_events : List FailedRow
  sync_log : List SyncLogEntry
  calendar : Calendar
deriving Repr, DecidableEq

/-- The per-event counters of lines 597-598. -/
structure RunStats where
  created : Nat
  updated : Nat
  skipped : Nat
  errors : Nat
deriving Repr, DecidableEq

/-- The record written on create/relink (lines 674-699). -/
def recordFor (e : CalendarEvent) (calId : Nat) : SyncRecord :=
  { sheet_event_id := e.sheet_id, unique_event_id := unique_id e,
    calendar_event_id := calId, event_hash := content_hash e,
    event_name := e.name, start_time := isoStr e.start_time,
    end_time := isoStr e.end_time }

/-- The message of the sqlite `IntegrityError` raised by a conflicting plain
`INSERT` (caught by the per-event handler at line 709). -/
def integrityError : String := "UNIQUE constraint failed: synced_events"

/-- The relink-or-create tail of the per-event loop (lines 669-726): link to
a snapshot entry (counted skipped), otherwise create with retry; a terminal
create error or the `IntegrityError` of a conflicting insert is caught by
the per-event handler, counted and appended to `failed_events`. -/
def linkOrCreate (failPlan : String → List String)
    (snapshot : List (String × Nat)) (stats : RunStats) (st : SyncState)
    (e : CalendarEvent) : RunStats × SyncState :=
  match lookupSnap snapshot (content_key e) with
  | some calId =>
    ({ stats with skipped := stats.skipped + 1 },
     { st with synced_events := upsertRecord st.synced_events (recordFor e calId) })
  | none =>
    match (create_event_with_retry (failPlan (unique_id e)) 3 1
        st.calendar.nextId).1 with
    | some (Except.ok _) =>
      let newId := st.calendar.nextId
      let cal' : Calendar :=
        { entries := st.calendar.entries ++
            [{ id := newId, summary := pyStrip e.name, start := e.start_time,
               endTime := e.end_time, cancelled := false }],
          nextId := newId + 1 }
      match insertRecord st.synced_events (recordFor e newId) with
      | some store' =>
        ({ stats with created := stats.created + 1 },
         { st with calendar := cal', synced_events := store' })
      | none =>
        -- the calendar insert already happened; the record insert raises
        ({ stats with errors := stats.errors + 1 },
         { st with calendar := cal',
                   failed_events := st.failed_events ++
                     [{ row_number := e.row_number, event_name := e.name,
                        error_message := integrityError }] })
    | some (Except.error msg) =>
      ({ stats with errors := stats.errors + 1 },
       { st with failed_events := st.failed_events ++
           [{ row_number := e.row_number, event_name := e.name,
              error_message := msg }] })
    | none => (stats, st)

/-- The per-event body of the `for event in sheet_events` loop
(lines 605-726).  When the stored record's entry is fetched and is
cancelled, control falls past the try block without the DELETE (the DELETE
lives only in the exception handler), exactly as in the source. -/
def processEvent (failPlan : String → List String)
    (snapshot : List (String × Nat)) (acc : RunStats × SyncState)
    (e : CalendarEvent) : RunStats × SyncState :=
  let stats := acc.1
  let st := acc.2
  match lookupRecord st.synced_events (unique_id e) with
  | some dbr =>
    match calendarGet st.calendar dbr.calendar_event_id with
    | some entry =>
      if entry.cancelled = false then
        if dbr.event_hash == content_hash e then
          ({ stats with skipped := stats.skipped + 1 }, st)
        else
          ({ stats with updated := stats.updated + 1 },
           { st with
               calendar := calendarUpdate st.calendar dbr.calendar_event_id e,
               synced_events := updateRecord st.synced_events (unique_id e)
                 (content_hash e) e.name (isoStr e.start_time)
                 (isoStr e.end_time) })
      else
        linkOrCreate failPlan snapshot stats st e
    | none =>
      linkOrCreate failPlan snapshot stats
        { st with synced_events := deleteRecord st.synced_events (unique_id e) } e
  | none => linkOrCreate failPlan snapshot stats st e

/-- `time_min` of line 590 (Nat subtraction clamps at the epoch; the claims
never depend on the lower window edge). -/
def minList (l : List Nat) : Nat := l.foldl Nat.min (l.headD 0)

/-- `max(all_dates)` of line 591. -/
def maxList (l : List Nat) : Nat := l.foldl Nat.max 0

def runWindowMin (evs : List CalendarEvent) : Nat :=
  minList (evs.map (·.start_time) ++ evs.map (·.end_time)) - dayLen

def runWindowMax (evs : List CalendarEvent) : Nat :=
  maxList (evs.map (·.start_time) ++ evs.map (·.end_time)) + dayLen

/-- The structured result dictionary of `sync_events` (lines 579-586 and
749-760); the early-return dictionary carries only status/message/invalid
counts, its numeric fields are zero here. -/
structure SyncResult where
  status : String
  message : String
  created : Nat
  updated : Nat
  skipped : Nat
  errors : Nat
  total_processed : Nat
  invalid_events : Nat
  duplicate_event_ids : Nat
deriving Repr, DecidableEq

/-- `CalendarSyncService.sync_events` (lines 570-771) over the outputs of
`read_sheet_events`.  `failPlan` gives, per identity key, the error messages
of the initially failing calendar-insert attempts for that event (the
collaborator's failure behaviour).  Returns the result dictionary and the
post-run state. -/
def sync_events (trigger_source : String) (failPlan : String → List String)
    (sheet_events : List CalendarEvent) (invalid_count : Nat)
    (duplicate_tracking : List (String × Nat)) (st : SyncState) :
    SyncResult × SyncState :=
  if sheet_events.isEmpty then
    ({ status := if invalid_count = 0 then "error" else "partial",
       message := "No valid events in sheet", created := 0, updated := 0,
       skipped := 0, errors := 0, total_processed := 0,
       invalid_events := invalid_count, duplicate_event_ids := 0 }, st)
  else
    let snapshot := get_existing_calendar_events st.calendar
      (runWindowMin sheet_events) (runWindowMax sheet_events)
    let duplicate_count :=
      (duplicate_tracking.filter (fun p => decide (1 < p.2))).length
    let res := sheet_events.foldl (processEvent failPlan snapshot)
      (⟨0, 0, 0, 0⟩, st)
    let stats := res.1
    let st1 := res.2
    let logEntry : SyncLogEntry :=
      { events_created := stats.created, events_updated := stats.updated,
        events_skipped := stats.skipped, events_deleted := 0,
        errors := stats.errors, trigger_source := trigger_source,
        status := "completed", total_processed := sheet_events.length }
    let st2 := { st1 with sync_log := st1.sync_log ++ [logEntry] }
    ({ status := if stats.errors = 0 then "success" else "partial",
       message := "", created := stats.created, updated := stats.updated,
       skipped := stats.skipped, errors := stats.errors,
       total_processed := sheet_events.length,
       invalid_events := invalid_count,
       duplicate_event_ids := duplicate_count }, st2)

/-- One raw sheet row after the date-parsing collaborator has run on its two
date cells (`DateTimeParser.parse` is the out-of-scope pure utility; `none`
models a parse failure with its reason). -/
structure SheetRow where
  event_id : String
  event_name : String
  start_parsed : Option Nat
  end_parsed : Option Nat
  description : String
  event_type : String
  color : String
  focus_time : String
deriving Repr, DecidableEq

/-- One entry of the invalid-row report (representative reason strings; the
claims do not inspect the exact message text of this report). -/
structure InvalidRow where
  row : Nat
  name : String
  error : String
deriving Repr, DecidableEq

/-- The `duplicate_tracking` dict increment of lines 416-420. -/
def bumpTally (t : List (String × Nat)) (k : String) : List (String × Nat) :=
  if t.any (fun p => p.1 == k) then
    t.map (fun p => if p.1 == k then (p.1, p.2 + 1) else p)
  else t ++ [(k, 1)]

def lookupTally (t : List (String × Nat)) (k : String) : Option Nat :=
  (t.find? (fun p => p.1 == k)).map (·.2)

/-- `read_sheet_events` (lines 374-497) over pre-parsed rows: rows without an
Event ID are invalid; every identified row bumps the duplicate tally; rows
with an unparseable date are invalid; the rest become `CalendarEvent`s
(row numbers counted from 2) and are validated.  Returns
`(valid_events, invalid_events, duplicate_tracking)`. -/
def read_sheet_events (rows : List SheetRow) :
    List CalendarEvent × List InvalidRow × List (String × Nat) :=
  (rows.foldl (fun acc row =>
    let vs := acc.1.1
    let ivs := acc.1.2.1
    let tally := acc.1.2.2
    let rn := acc.2
    if row.event_id == "" then
      ((vs, ivs ++ [⟨rn, row.event_name, "Missing Event ID"⟩], tally), rn + 1)
    else
      let tally' := bumpTally tally row.event_id
      match row.start_parsed, row.end_parsed with
      | some s, some en =>
        let e : CalendarEvent :=
          { sheet_id := row.event_id, name := row.event_name, start_time := s,
            end_time := en, description := row.description,
            event_type := row.event_type, color := row.color,
            focus_time := pyLower row.focus_time == "yes", row_number := rn }
        if is_valid e then ((vs ++ [e], ivs, tally'), rn + 1)
        else ((vs, ivs ++ [⟨rn, e.name, "validation failed"⟩], tally'), rn + 1)
      | _, _ =>
        ((vs, ivs ++ [⟨rn, row.event_name, "invalid date"⟩], tally'), rn + 1))
    (([], [], []), 2)).1

/-- A fresh deployment: empty sync store, empty logs, empty calendar. -/
def initialState : SyncState :=
  { synced_events := [], failed_events := [], sync_log := [],
    calendar := { entries := [], nextId := 0 } }

/-! ### String-level infrastructure -/

theorem string_data_eq {a b : String} (h : a.data = b.data) : a = b := by
  cases a; cases b; exact congrArg String.mk h

theorem isoStr_inj {a b : Nat} (h : isoStr a = isoStr b) : a = b := by
  have h2 : (isoStr a).data = (isoStr b).data := by rw [h]
  simp only [isoStr] at h2
  have h3 := congrArg List.length h2
  simpa using h3

theorem bar_not_mem_isoStr (t : Nat) : '|' ∉ (isoStr t).data := by
  simp only [isoStr]
  intro h
  have := List.eq_of_mem_replicate h
  simp at this

/-- Splitting a string at a separator character absent from both left parts
is unambiguous. -/
theorem bar_split : ∀ (a1 a2 b1 b2 : List Char), '|' ∉ a1 → '|' ∉ a2 →
    a1 ++ '|' :: b1 = a2 ++ '|' :: b2 → a1 = a2 ∧ b1 = b2 := by
  intro a1
  induction a1 with
  | nil =>
    intro a2 b1 b2 _ h2 h
    cases a2 with
    | nil => simpa using h
    | cons c t =>
      simp only [List.nil_append, List.cons_append, List.cons.injEq] at h
      exact absurd (h.1 ▸ List.mem_cons_self c t) h2
  | cons c t ih =>
    intro a2 b1 b2 h1 h2 h
    cases a2 with
    | nil =>
      simp only [List.cons_append, List.nil_append, List.cons.injEq] at h
      exact absurd (h.1 ▸ List.mem_cons_self c t) h1
    | cons c2 t2 =>
      simp only [List.cons_append, List.cons.injEq] at h
      obtain ⟨rfl, h⟩ := h
      have := ih t2 b1 b2 (fun hm => h1 (List.mem_cons_of_mem _ hm))
        (fun hm => h2 (List.mem_cons_of_mem _ hm)) h
      exact ⟨by rw [this.1], this.2⟩

theorem content_hash_data (e : CalendarEvent) :
    (content_hash e).data = (normName e).data ++
      '|' :: ((isoStr e.start_time).data ++ '|' :: (isoStr e.end_time).data) := by
  have hbar : ("|" : String).data = ['|'] := rfl
  simp [content_hash, String.data_append, hbar, List.append_assoc]

theorem content_key_data (e : CalendarEvent) :
    (content_key e).data = (normName e).data ++ '|' :: (isoStr e.start_time).data := by
  have hbar : ("|" : String).data = ['|'] := rfl
  simp [content_key, String.data_append, hbar, List.append_assoc]

theorem unique_id_data (e : CalendarEvent) :
    (unique_id e).data = e.sheet_id.data ++ '_' :: (isoStr e.start_time).data := by
  have hu : ("_" : String).data = ['_'] := rfl
  simp [unique_id, String.data_append, hu, List.append_assoc]

/-- The content hash depends on exactly the normalized name and the two
instants. -/
theorem content_hash_eq_iff (e1 e2 : CalendarEvent)
    (hb1 : '|' ∉ (normName e1).data) (hb2 : '|' ∉ (normName e2).data) :
    content_hash e1 = content_hash e2 ↔
      (normName e1 = normName e2 ∧ e1.start_time = e2.start_time ∧
       e1.end_time = e2.end_time) := by
  constructor
  · intro h
    have hd : (content_hash e1).data = (content_hash e2).data := by rw [h]
    rw [content_hash_data, content_hash_data] at hd
    obtain ⟨hn, hrest⟩ := bar_split _ _ _ _ hb1 hb2 hd
    obtain ⟨hs, he⟩ := bar_split _ _ _ _ (bar_not_mem_isoStr _)
      (bar_not_mem_isoStr _) hrest
    exact ⟨string_data_eq hn, isoStr_inj (string_data_eq hs),
      isoStr_inj (string_data_eq he)⟩
  · intro ⟨hn, hs, he⟩
    simp [content_hash, hn, hs, he]

/-- Hash equality never needs the bar-freedom assumptions in the forward
direction used by most claims. -/
theorem content_hash_congr (e1 e2 : CalendarEvent)
    (hn : normName e1 = normName e2) (hs : e1.start_time = e2.start_time)
    (he : e1.end_time = e2.end_time) : content_hash e1 = content_hash e2 := by
  simp [content_hash, hn, hs, he]

theorem content_hash_ne_of_end (e1 e2 : CalendarEvent)
    (hn : normName e1 = normName e2) (hs : e1.start_time = e2.start_time)
    (he : e1.end_time ≠ e2.end_time) : content_hash e1 ≠ content_hash e2 := by
  intro h
  have hd : (content_hash e1).data = (content_hash e2).data := by rw [h]
  rw [content_hash_data, content_hash_data, hn, hs] at hd
  have h1 := List.append_cancel_left hd
  simp only [List.cons.injEq] at h1
  have h2 := List.append_cancel_left h1.2
  simp only [List.cons.injEq] at h2
  exact he (isoStr_inj (string_data_eq h2.2))

theorem content_hash_ne_of_name (e1 e2 : CalendarEvent)
    (hb1 : '|' ∉ (normName e1).data) (hb2 : '|' ∉ (normName e2).data)
    (hn : normName e1 ≠ normName e2) : content_hash e1 ≠ content_hash e2 := by
  intro h
  have hd : (content_hash e1).data = (content_hash e2).data := by rw [h]
  rw [content_hash_data, content_hash_data] at hd
  exact hn (string_data_eq (bar_split _ _ _ _ hb1 hb2 hd).1)

theorem unique_id_ne_of_start (e1 e2 : CalendarEvent)
    (hid : e1.sheet_id = e2.sheet_id) (hs : e1.start_time ≠ e2.start_time) :
    unique_id e1 ≠ unique_id e2 := by
  intro h
  have hd : (unique_id e1).data = (unique_id e2).data := by rw [h]
  rw [unique_id_data, unique_id_data, hid] at hd
  have h1 := List.append_cancel_left hd
  simp only [List.cons.injEq] at h1
  exact hs (isoStr_inj (string_data_eq h1.2))

theorem content_key_ne_of_start (e1 e2 : CalendarEvent)
    (hn : normName e1 = normName e2) (hs : e1.start_time ≠ e2.start_time) :
    content_key e1 ≠ content_key e2 := by
  intro h
  have hd : (content_key e1).data = (content_key e2).data := by rw [h]
  rw [content_key_data, content_key_data, hn] at hd
  have h1 := List.append_cancel_left hd
  simp only [List.cons.injEq] at h1
  exact hs (isoStr_inj (string_data_eq h1.2))

/-! ### Step lemmas for the reconciliation loop -/

/-- A state is settled for an event: the store links its identity key to a
record holding its current content hash, and that record's calendar entry is
live. -/
def goodFor (st : SyncState) (e : CalendarEvent) : Prop :=
  ∃ r, lookupRecord st.synced_events (unique_id e) = some r ∧
    r.event_hash = content_hash e ∧
    ∃ en, calendarGet st.calendar r.calendar_event_id = some en ∧
      en.cancelled = false

/-- A settled event is skipped and leaves the state untouched. -/
theorem skipStep (fp : String → List String) (snap : List (String × Nat))
    (stats : RunStats) (st : SyncState) (e : CalendarEvent)
    (h : goodFor st e) :
    processEvent fp snap (stats, st) e =
      ({ stats with skipped := stats.skipped + 1 }, st) := by
  obtain ⟨r, hlook, hhash, en, hget, hcanc⟩ := h
  simp only [processEvent, hlook]
  simp only [hget]
  simp [hcanc, hhash]

/-- A run over settled events only counts skips and never touches state. -/
theorem foldl_skip (fp : String → List String) (snap : List (String × Nat)) :
    ∀ (evs : List CalendarEvent) (stats : RunStats) (st : SyncState),
    (∀ e ∈ evs, goodFor st e) →
    evs.foldl (processEvent fp snap) (stats, st) =
      ({ stats with skipped := stats.skipped + evs.length }, st) := by
  intro evs
  induction evs with
  | nil => intro stats st _; simp
  | cons e rest ih =>
    intro stats st h
    have hstep := skipStep fp snap stats st e (h e (List.mem_cons_self e rest))
    simp only [List.foldl_cons, hstep]
    rw [ih _ st (fun x hx => h x (List.mem_cons_of_mem e hx))]
    simp only [List.length_cons]
    have harith : stats.skipped + 1 + rest.length = stats.skipped + (rest.length + 1) := by omega
    rw [harith]

/-- The entry materialized by a successful calendar insert. -/
def newEntry (e : CalendarEvent) (i : Nat) : CalEntry :=
  { id := i, summary := pyStrip e.name, start := e.start_time,
    endTime := e.end_time, cancelled := false }

/-- State after one successful create of `e`. -/
def createPush (st : SyncState) (e : CalendarEvent) : SyncState :=
  { st with
      calendar := { entries := st.calendar.entries ++
          [newEntry e st.calendar.nextId], nextId := st.calendar.nextId + 1 },
      synced_events := st.synced_events ++ [recordFor e st.calendar.nextId] }

/-- An unknown event (no record, no snapshot match, inserts succeeding) is
created: fresh entry, fresh record, `created` incremented. -/
theorem createStep (fp : String → List String) (snap : List (String × Nat))
    (stats : RunStats) (st : SyncState) (e : CalendarEvent)
    (hl : lookupRecord st.synced_events (unique_id e) = none)
    (hsnap : lookupSnap snap (content_key e) = none)
    (hfp : fp (unique_id e) = [])
    (hcal : ∀ r ∈ st.synced_events, r.calendar_event_id ≠ st.calendar.nextId) :
    processEvent fp snap (stats, st) e =
      ({ stats with created := stats.created + 1 }, createPush st e) := by
  have hins : insertRecord st.synced_events (recordFor e st.calendar.nextId) =
      some (st.synced_events ++ [recordFor e st.calendar.nextId]) := by
    simp only [insertRecord]
    rw [if_neg]
    intro hany
    rw [List.any_eq_true] at hany
    obtain ⟨x, hx, hp⟩ := hany
    simp only [recordFor, Bool.or_eq_true, beq_iff_eq] at hp
    rcases hp with hp | hp
    · exact absurd hp (by simpa using List.find?_eq_none.1 hl x hx)
    · exact hcal x hx hp
  simp only [processEvent]
  rw [hl]
  simp only [linkOrCreate]
  rw [hsnap, hfp]
  simp only [create_event_with_retry, create_event_with_retry_go, List.get?]
  rw [hins]
  rfl

/-- Iterated `createPush`. -/
def afterCreates : SyncState → List CalendarEvent → SyncState
  | st, [] => st
  | st, e :: rest => afterCreates (createPush st e) rest

theorem afterCreates_synced_ext : ∀ (l : List CalendarEvent) (st : SyncState),
    ∃ t, (afterCreates st l).synced_events = st.synced_events ++ t := by
  intro l
  induction l with
  | nil => intro st; exact ⟨[], by simp [afterCreates]⟩
  | cons e rest ih =>
    intro st
    obtain ⟨t, ht⟩ := ih (createPush st e)
    refine ⟨[recordFor e st.calendar.nextId] ++ t, ?_⟩
    simp only [afterCreates]
    rw [ht]
    simp [createPush, List.append_assoc]

theorem afterCreates_entries_ext : ∀ (l : List CalendarEvent) (st : SyncState),
    ∃ t, (afterCreates st l).calendar.entries = st.calendar.entries ++ t := by
  intro l
  induction l with
  | nil => intro st; exact ⟨[], by simp [afterCreates]⟩
  | cons e rest ih =>
    intro st
    obtain ⟨t, ht⟩ := ih (createPush st e)
    refine ⟨[newEntry e st.calendar.nextId] ++ t, ?_⟩
    simp only [afterCreates]
    rw [ht]
    simp [createPush, List.append_assoc]

/-- A run over pairwise-distinct unknown events (inserts succeeding,
snapshot silent) creates every one of them. -/
theorem foldl_create (fp : String → List String) (snap : List (String × Nat))
    (hfp : ∀ u, fp u = []) :
    ∀ (evs : List CalendarEvent) (stats : RunStats) (st : SyncState),
    evs.Pairwise (fun a b => unique_id a ≠ unique_id b) →
    (∀ e ∈ evs, ∀ r ∈ st.synced_events, r.unique_event_id ≠ unique_id e) →
    (∀ r ∈ st.synced_events, r.calendar_event_id < st.calendar.nextId) →
    (∀ e ∈ evs, lookupSnap snap (content_key e) = none) →
    evs.foldl (processEvent fp snap) (stats, st) =
      ({ stats with created := stats.created + evs.length },
       afterCreates st evs) := by
  intro evs
  induction evs with
  | nil => intro stats st _ _ _ _; simp [afterCreates]
  | cons e rest ih =>
    intro stats st hpw hfresh hbound hsnap
    have hl : lookupRecord st.synced_events (unique_id e) = none := by
      apply List.find?_eq_none.2
      intro r hr
      simpa using hfresh e (List.mem_cons_self e rest) r hr
    have hstep := createStep fp snap stats st e hl
      (hsnap e (List.mem_cons_self e rest)) (hfp _)
      (fun r hr => Nat.ne_of_lt (hbound r hr))
    simp only [List.foldl_cons, hstep, afterCreates]
    rw [ih _ (createPush st e) (List.Pairwise.of_cons hpw) ?_ ?_ ?_]
    · simp only [List.length_cons]
      have harith : stats.created + 1 + rest.length = stats.created + (rest.length + 1) := by omega
      rw [harith]
    · intro x hx r hr
      simp only [createPush, List.mem_append, List.mem_singleton] at hr
      rcases hr with hr | hr
      · exact hfresh x (List.mem_cons_of_mem e hx) r hr
      · subst hr
        simp only [recordFor]
        exact (List.pairwise_cons.1 hpw).1 x hx
    · intro r hr
      simp only [createPush, List.mem_append, List.mem_singleton] at hr
      simp only [createPush]
      rcases hr with hr | hr
      · exact Nat.lt_succ_of_lt (hbound r hr)
      · subst hr; simp [recordFor, Nat.lt_succ_self]
    · intro x hx
      exact hsnap x (List.mem_cons_of_mem e hx)

/-- After a clean create run over pairwise-distinct fresh events, every one
of them is settled in the resulting state. -/
theorem goods_afterCreates :
    ∀ (evs : List CalendarEvent) (st : SyncState),
    evs.Pairwise (fun a b => unique_id a ≠ unique_id b) →
    (∀ e ∈ evs, ∀ r ∈ st.synced_events, r.unique_event_id ≠ unique_id e) →
    (∀ en ∈ st.calendar.entries, en.id < st.calendar.nextId) →
    ∀ e ∈ evs, goodFor (afterCreates st evs) e := by
  intro evs
  induction evs with
  | nil => intro st _ _ _ e he; simp at he
  | cons e rest ih =>
    intro st hpw hfresh hids x hx
    simp only [afterCreates]
    rcases List.mem_cons.1 hx with rfl | hxr
    · obtain ⟨t, ht⟩ := afterCreates_synced_ext rest (createPush st x)
      obtain ⟨t2, ht2⟩ := afterCreates_entries_ext rest (createPush st x)
      refine ⟨recordFor x st.calendar.nextId, ?_, rfl,
        newEntry x st.calendar.nextId, ?_, rfl⟩
      · rw [lookupRecord, ht]
        simp only [createPush, List.append_assoc]
        rw [List.find?_append]
        have hnone : st.synced_events.find?
            (fun r => r.unique_event_id == unique_id x) = none := by
          apply List.find?_eq_none.2
          intro r hr
          simpa using hfresh x (List.mem_cons_self x rest) r hr
        rw [hnone]
        simp [recordFor]
      · rw [calendarGet, ht2]
        simp only [createPush, List.append_assoc]
        rw [List.find?_append]
        have hnone : st.calendar.entries.find?
            (fun en => en.id ==
              (recordFor x st.calendar.nextId).calendar_event_id) = none := by
          apply List.find?_eq_none.2
          intro en hen
          simp only [recordFor, beq_iff_eq]
          exact Nat.ne_of_lt (hids en hen)
        rw [hnone]
        simp [recordFor, newEntry]
    · apply ih (createPush st e) (List.Pairwise.of_cons hpw) ?_ ?_ x hxr
      · intro y hy r hr
        simp only [createPush, List.mem_append, List.mem_singleton] at hr
        rcases hr with hr | hr
        · exact hfresh y (List.mem_cons_of_mem e hy) r hr
        · subst hr
          simp only [recordFor]
          exact (List.pairwise_cons.1 hpw).1 y hy
      · intro en hen
        simp only [createPush, List.mem_append, List.mem_singleton] at hen
        simp only [createPush]
        rcases hen with hen | hen
        · exact Nat.lt_succ_of_lt (hids en hen)
        · subst hen; simp [newEntry, Nat.lt_succ_self]

/-- Unfolding `sync_events` on a non-empty valid-event list. -/
theorem sync_events_of_ne_nil (trig : String) (fp : String → List String)
    (evs : List CalendarEvent) (inv : Nat) (dups : List (String × Nat))
    (st : SyncState) (h : evs ≠ []) :
    sync_events trig fp evs inv dups st =
      (let snapshot := get_existing_calendar_events st.calendar
         (runWindowMin evs) (runWindowMax evs)
       let stats := (evs.foldl (processEvent fp snapshot) (⟨0, 0, 0, 0⟩, st)).1
       let st1 := (evs.foldl (processEvent fp snapshot) (⟨0, 0, 0, 0⟩, st)).2
       ({ status := if stats.errors = 0 then "success" else "partial",
          message := "", created := stats.created, updated := stats.updated,
          skipped := stats.skipped, errors := stats.errors,
          total_processed := evs.length, invalid_events := inv,
          duplicate_event_ids :=
            (dups.filter (fun p => decide (1 < p.2))).length },
        { st1 with sync_log := st1.sync_log ++
            [{ events_created := stats.created, events_updated := stats.updated,
               events_skipped := stats.skipped, events_deleted := 0,
               errors := stats.errors, trigger_source := trig,
               status := "completed", total_processed := evs.length }] })) := by
  have hne : evs.isEmpty = false := by
    simp [List.isEmpty_iff, h]
  simp only [sync_events, hne]
  rfl

/-! ### Claim C2 -/

/-- C2 counterexample: two valid source rows may share both the source id
and the start time (hence one identityKey) while differing in end time.
From an empty store and calendar, the first run completes with its single
create succeeding (`created = 1`, `errors = 0`), yet the immediately
following run with the unchanged source performs two updates and skips
nothing — refuting "the following run yields created = 0 and updated = 0,
with every event counted as skipped". -/
theorem claim_C2_counterexample :
    (sync_events "m" (fun _ => [])
      [{ sheet_id := "E1", name := "Standup", start_time := 10, end_time := 20,
         description := "", event_type := "DEFAULT", color := "",
         focus_time := false, row_number := 2 },
       { sheet_id := "E1", name := "Standup", start_time := 10, end_time := 30,
         description := "", event_type := "DEFAULT", color := "",
         focus_time := false, row_number := 3 }] 0 [] initialState).1.created = 1 ∧
    (sync_events "m" (fun _ => [])
      [{ sheet_id := "E1", name := "Standup", start_time := 10, end_time := 20,
         description := "", event_type := "DEFAULT", color := "",
         focus_time := false, row_number := 2 },
       { sheet_id := "E1", name := "Standup", start_time := 10, end_time := 30,
         description := "", event_type := "DEFAULT", color := "",
         focus_time := false, row_number := 3 }] 0 [] initialState).1.errors = 0 ∧
    (sync_events "m" (fun _ => [])
      [{ sheet_id := "E1", name := "Standup", start_time := 10, end_time := 20,
         description := "", event_type := "DEFAULT", color := "",
         focus_time := false, row_number := 2 },
       { sheet_id := "E1", name := "Standup", start_time := 10, end_time := 30,
         description := "", event_type := "DEFAULT", color := "",
         focus_time := false, row_number := 3 }] 0 []
      (sync_events "m" (fun _ => [])
        [{ sheet_id := "E1", name := "Standup", start_time := 10, end_time := 20,
           description := "", event_type := "DEFAULT", color := "",
           focus_time := false, row_number := 2 },
         { sheet_id := "E1", name := "Standup", start_time := 10, end_time := 30,
           description := "", event_type := "DEFAULT", color := "",
           focus_time := false, row_number := 3 }] 0 [] initialState).2).1.updated = 2 ∧
    (sync_events "m" (fun _ => [])
      [{ sheet_id := "E1", name := "Standup", start_time := 10, end_time := 20,
         description := "", event_type := "DEFAULT", color := "",
         focus_time := false, row_number := 2 },
       { sheet_id := "E1", name := "Standup", start_time := 10, end_time := 30,
         description := "", event_type := "DEFAULT", color := "",
         focus_time := false, row_number := 3 }] 0 []
      (sync_events "m" (fun _ => [])
        [{ sheet_id := "E1", name := "Standup", start_time := 10, end_time := 20,
           description := "", event_type := "DEFAULT", color := "",
           focus_time := false, row_number := 2 },
         { sheet_id := "E1", name := "Standup", start_time := 10, end_time := 30,
           description := "", event_type := "DEFAULT", color := "",
           focus_time := false, row_number := 3 }] 0 [] initialState).2).1.skipped = 0 := by
  decide

/-- C2 (amended): for every set of valid source events with pairwise
distinct identity keys, starting from an empty sync store and empty calendar,
a first `sync_events` run in which every calendar insert succeeds creates
every event without error, and the immediately following run with the
unchanged source yields `created = 0` and `updated = 0`, with every event
counted as skipped. -/
theorem claim_C2 (trig1 trig2 : String) (inv1 inv2 : Nat)
    (dups1 dups2 : List (String × Nat)) (evs : List CalendarEvent)
    (hpw : evs.Pairwise (fun a b => unique_id a ≠ unique_id b)) :
    (sync_events trig1 (fun _ => []) evs inv1 dups1 initialState).1.created = evs.length ∧
    (sync_events trig1 (fun _ => []) evs inv1 dups1 initialState).1.errors = 0 ∧
    (sync_events trig2 (fun _ => []) evs inv2 dups2
      (sync_events trig1 (fun _ => []) evs inv1 dups1 initialState).2).1.created = 0 ∧
    (sync_events trig2 (fun _ => []) evs inv2 dups2
      (sync_events trig1 (fun _ => []) evs inv1 dups1 initialState).2).1.updated = 0 ∧
    (sync_events trig2 (fun _ => []) evs inv2 dups2
      (sync_events trig1 (fun _ => []) evs inv1 dups1 initialState).2).1.skipped = evs.length ∧
    (sync_events trig2 (fun _ => []) evs inv2 dups2
      (sync_events trig1 (fun _ => []) evs inv1 dups1 initialState).2).1.errors = 0 := by
  by_cases hevs : evs = []
  · subst hevs
    simp [sync_events, initialState]
  · have hsnap0 : get_existing_calendar_events initialState.calendar
        (runWindowMin evs) (runWindowMax evs) = [] := rfl
    have hfold1 := foldl_create (fun _ => []) [] (fun _ => rfl) evs ⟨0, 0, 0, 0⟩
      initialState hpw (by intro e _ r hr; simp [initialState] at hr)
      (by intro r hr; simp [initialState] at hr)
      (fun e _ => rfl)
    have h1 := sync_events_of_ne_nil trig1 (fun _ => []) evs inv1 dups1
      initialState hevs
    simp only [hsnap0, hfold1] at h1
    have hgoods := goods_afterCreates evs initialState hpw
      (by intro e _ r hr; simp [initialState] at hr)
      (by intro en hen; simp [initialState] at hen)
    have hst2 : (sync_events trig1 (fun _ => []) evs inv1 dups1 initialState).2 =
        { afterCreates initialState evs with
            sync_log := (afterCreates initialState evs).sync_log ++
              [{ events_created := 0 + evs.length, events_updated := 0,
                 events_skipped := 0, events_deleted := 0, errors := 0,
                 trigger_source := trig1, status := "completed",
                 total_processed := evs.length }] } := by
      rw [h1]
    have hgoods2 : ∀ e ∈ evs,
        goodFor (sync_events trig1 (fun _ => []) evs inv1 dups1 initialState).2 e := by
      intro e he
      rw [hst2]
      exact hgoods e he
    have hfold2 := foldl_skip (fun _ => [])
      (get_existing_calendar_events
        (sync_events trig1 (fun _ => []) evs inv1 dups1 initialState).2.calendar
        (runWindowMin evs) (runWindowMax evs)) evs ⟨0, 0, 0, 0⟩
      (sync_events trig1 (fun _ => []) evs inv1 dups1 initialState).2 hgoods2
    have h2 := sync_events_of_ne_nil trig2 (fun _ => []) evs inv2 dups2
      (sync_events trig1 (fun _ => []) evs inv1 dups1 initialState).2 hevs
    simp only [hfold2] at h2
    rw [h2, h1]
    simp

/-- C2 witness: the amended theorem applied to the spec's end-to-end
example shape — two valid events with distinct identity keys, run twice
from scratch. -/
theorem claim_C2_witness :
    (sync_events "scheduled" (fun _ => [])
      [{ sheet_id := "A1", name := "Standup", start_time := 10, end_time := 20,
         description := "", event_type := "DEFAULT", color := "",
         focus_time := false, row_number := 2 },
       { sheet_id := "A2", name := "Review", start_time := 30, end_time := 40,
         description := "", event_type := "DEFAULT", color := "",
         focus_time := false, row_number := 3 }] 0 [] initialState).1.created = 2 ∧
    (sync_events "manual" (fun _ => [])
      [{ sheet_id := "A1", name := "Standup", start_time := 10, end_time := 20,
         description := "", event_type := "DEFAULT", color := "",
         focus_time := false, row_number := 2 },
       { sheet_id := "A2", name := "Review", start_time := 30, end_time := 40,
         description := "", event_type := "DEFAULT", color := "",
         focus_time := false, row_number := 3 }] 0 []
      (sync_events "scheduled" (fun _ => [])
        [{ sheet_id := "A1", name := "Standup", start_time := 10, end_time := 20,
           description := "", event_type := "DEFAULT", color := "",
           focus_time := false, row_number := 2 },
         { sheet_id := "A2", name := "Review", start_time := 30, end_time := 40,
           description := "", event_type := "DEFAULT", color := "",
           focus_time := false, row_number := 3 }] 0 [] initialState).2).1.skipped = 2 := by
  have h := claim_C2 "scheduled" "manual" 0 0 [] []
    [{ sheet_id := "A1", name := "Standup", start_time := 10, end_time := 20,
       description := "", event_type := "DEFAULT", color := "",
       focus_time := false, row_number := 2 },
     { sheet_id := "A2", name := "Review", start_time := 30, end_time := 40,
       description := "", event_type := "DEFAULT", color := "",
       focus_time := false, row_number := 3 }] (by decide)
  exact ⟨h.1, h.2.2.2.2.1⟩

/-! ### Claims C1 and C10 -/

theorem linkOrCreate_sync_log (fp : String → List String)
    (snap : List (String × Nat)) (stats : RunStats) (st : SyncState)
    (e : CalendarEvent) : (linkOrCreate fp snap stats st e).2.sync_log = st.sync_log := by
  unfold linkOrCreate
  split
  · rfl
  · split
    · dsimp only
      split
      · rfl
      · rfl
    · rfl
    · rfl

theorem processEvent_sync_log (fp : String → List String)
    (snap : List (String × Nat)) (acc : RunStats × SyncState)
    (e : CalendarEvent) : (processEvent fp snap acc e).2.sync_log = acc.2.sync_log := by
  unfold processEvent
  dsimp only
  split
  · split
    · split
      · split
        · rfl
        · rfl
      · exact linkOrCreate_sync_log ..
    · exact linkOrCreate_sync_log ..
  · exact linkOrCreate_sync_log ..

theorem foldl_sync_log (fp : String → List String)
    (snap : List (String × Nat)) :
    ∀ (evs : List CalendarEvent) (acc : RunStats × SyncState),
    (evs.foldl (processEvent fp snap) acc).2.sync_log = acc.2.sync_log := by
  intro evs
  induction evs with
  | nil => intro acc; rfl
  | cons e rest ih =>
    intro acc
    rw [List.foldl_cons, ih (processEvent fp snap acc e),
      processEvent_sync_log]

/-- C1 counterexample: a run whose valid-event set is empty while one row
was invalid returns status `"partial"`, not `"error"` — refuting "the
returned status is 'error' whenever the set of valid events is empty". -/
theorem claim_C1_counterexample :
    (sync_events "manual" (fun _ => []) [] 1 [] initialState).1.status = "partial" ∧
    (sync_events "manual" (fun _ => []) [] 1 [] initialState).1.status ≠ "error" := by
  decide

/-- C1 (amended): with a non-empty valid-event set the returned status is
`"success"` exactly when the per-event error count is zero and `"partial"`
exactly when it is non-zero; with an empty valid-event set the status is
`"error"` when no rows were invalid and `"partial"` otherwise, and the run
short-circuits with the state (store, logs, calendar) completely untouched,
hence before any calendar mutation. -/
theorem claim_C1 (trig : String) (fp : String → List String)
    (evs : List CalendarEvent) (inv : Nat) (dups : List (String × Nat))
    (st : SyncState) :
    (evs ≠ [] →
      (((sync_events trig fp evs inv dups st).1.status = "success" ↔
          (sync_events trig fp evs inv dups st).1.errors = 0) ∧
       ((sync_events trig fp evs inv dups st).1.status = "partial" ↔
          (sync_events trig fp evs inv dups st).1.errors ≠ 0))) ∧
    (evs = [] →
      (sync_events trig fp evs inv dups st).1.status =
        (if inv = 0 then "error" else "partial") ∧
      (sync_events trig fp evs inv dups st).2 = st) := by
  constructor
  · intro h
    rw [sync_events_of_ne_nil trig fp evs inv dups st h]
    have hne : ("success" : String) ≠ "partial" := by decide
    by_cases herr : (evs.foldl (processEvent fp
        (get_existing_calendar_events st.calendar (runWindowMin evs)
          (runWindowMax evs))) (⟨0, 0, 0, 0⟩, st)).1.errors = 0
    · simp [herr, hne]
    · simp [herr, hne.symm]
  · intro h
    subst h
    simp [sync_events]

/-- C1 witness: both branches of the amended claim at concrete inputs — a
one-event error-free run reports `"success"`, and an empty-valid-set run
with one invalid row leaves the state untouched. -/
theorem claim_C1_witness :
    ((sync_events "m" (fun _ => [])
        [{ sheet_id := "A1", name := "Standup", start_time := 10, end_time := 20,
           description := "", event_type := "DEFAULT", color := "",
           focus_time := false, row_number := 2 }] 0 [] initialState).1.status =
      "success" ↔
     (sync_events "m" (fun _ => [])
        [{ sheet_id := "A1", name := "Standup", start_time := 10, end_time := 20,
           description := "", event_type := "DEFAULT", color := "",
           focus_time := false, row_number := 2 }] 0 [] initialState).1.errors = 0) ∧
    (sync_events "m" (fun _ => []) [] 1 [] initialState).2 = initialState := by
  refine ⟨((claim_C1 "m" (fun _ => [])
      [{ sheet_id := "A1", name := "Standup", start_time := 10, end_time := 20,
         description := "", event_type := "DEFAULT", color := "",
         focus_time := false, row_number := 2 }] 0 [] initialState).1
      (by decide)).1, ?_⟩
  exact ((claim_C1 "m" (fun _ => []) [] 1 [] initialState).2 rfl).2

/-- C10: every run over a non-empty valid-event set appends exactly one
record to the run-history log, that record's status is the constant
`"completed"` regardless of the per-event error count, and the
success/partial status returned to the caller is never the persisted value. -/
theorem claim_C10 (trig : String) (fp : String → List String)
    (evs : List CalendarEvent) (inv : Nat) (dups : List (String × Nat))
    (st : SyncState) (h : evs ≠ []) :
    ∃ entry : SyncLogEntry,
      (sync_events trig fp evs inv dups st).2.sync_log =
        st.sync_log ++ [entry] ∧
      entry.status = "completed" ∧
      (sync_events trig fp evs inv dups st).1.status ≠ "completed" := by
  rw [sync_events_of_ne_nil trig fp evs inv dups st h]
  dsimp only
  set F := evs.foldl (processEvent fp
    (get_existing_calendar_events st.calendar (runWindowMin evs)
      (runWindowMax evs))) (⟨0, 0, 0, 0⟩, st) with hF
  refine ⟨⟨F.1.created, F.1.updated, F.1.skipped, 0, F.1.errors, trig,
    "completed", evs.length⟩, ?_, rfl, ?_⟩
  · rw [hF, foldl_sync_log]
  · by_cases herr : F.1.errors = 0
    · simp [herr]
    · simp [herr]

/-- C10 witness: a concrete error-free run appends a `"completed"` history
record while returning `"success"`. -/
theorem claim_C10_witness :
    ∃ entry : SyncLogEntry,
      (sync_events "m" (fun _ => [])
        [{ sheet_id := "A1", name := "Standup", start_time := 10, end_time := 20,
           description := "", event_type := "DEFAULT", color := "",
           focus_time := false, row_number := 2 }] 0 [] initialState).2.sync_log =
        initialState.sync_log ++ [entry] ∧
      entry.status = "completed" ∧
      (sync_events "m" (fun _ => [])
        [{ sheet_id := "A1", name := "Standup", start_time := 10, end_time := 20,
           description := "", event_type := "DEFAULT", color := "",
           focus_time := false, row_number := 2 }] 0 [] initialState).1.status ≠
        "completed" :=
  claim_C10 "m" (fun _ => [])
    [{ sheet_id := "A1", name := "Standup", start_time := 10, end_time := 20,
       description := "", event_type := "DEFAULT", color := "",
       focus_time := false, row_number := 2 }] 0 [] initialState (by decide)

/-! ### Claim C8 -/

theorem get?_take_three : ∀ (l : List String) (k n : Nat), k < n →
    (l.take n).get? k = l.get? k := by
  intro l
  induction l with
  | nil => simp
  | cons a t ih =>
    intro k n h
    cases n with
    | zero => omega
    | succ n =>
      cases k with
      | zero => simp
      | succ k => simpa using ih k n (by omega)

/-- C8: `create_event_with_retry` consults at most the first 3 attempt
outcomes; when all 3 attempts fail it sleeps `base × 1` then `base × 2`
between consecutive attempts and propagates the final attempt's error; in
`sync_events` such an event contributes exactly one error and no create,
appends a failure-log row carrying its row number and the final error
message, and writes no sync record. -/
theorem claim_C8 :
    (∀ (plan : List String) (base freshId : Nat),
      create_event_with_retry (plan.take 3) 3 base freshId =
        create_event_with_retry plan 3 base freshId) ∧
    (∀ (plan : List String) (base freshId : Nat) (m1 m2 m3 : String),
      plan.get? 0 = some m1 → plan.get? 1 = some m2 → plan.get? 2 = some m3 →
      create_event_with_retry plan 3 base freshId =
        (some (Except.error m3), [base * 1, base * 2])) ∧
    (∀ (trig m1 m2 m3 : String) (e : CalendarEvent) (inv : Nat)
      (dups : List (String × Nat)) (fl : List FailedRow)
      (lg : List SyncLogEntry) (n : Nat),
      (sync_events trig (fun _ => [m1, m2, m3]) [e] inv dups
          { synced_events := [], failed_events := fl, sync_log := lg,
            calendar := { entries := [], nextId := n } }).1.errors = 1 ∧
      (sync_events trig (fun _ => [m1, m2, m3]) [e] inv dups
          { synced_events := [], failed_events := fl, sync_log := lg,
            calendar := { entries := [], nextId := n } }).1.created = 0 ∧
      (sync_events trig (fun _ => [m1, m2, m3]) [e] inv dups
          { synced_events := [], failed_events := fl, sync_log := lg,
            calendar := { entries := [], nextId := n } }).2.failed_events =
        fl ++ [⟨e.row_number, e.name, m3⟩] ∧
      (sync_events trig (fun _ => [m1, m2, m3]) [e] inv dups
          { synced_events := [], failed_events := fl, sync_log := lg,
            calendar := { entries := [], nextId := n } }).2.synced_events = []) := by
  refine ⟨?_, ?_, ?_⟩
  · intro plan base freshId
    simp only [create_event_with_retry, create_event_with_retry_go]
    rw [get?_take_three plan 0 3 (by omega), get?_take_three plan 1 3 (by omega),
      get?_take_three plan 2 3 (by omega)]
  · intro plan base freshId m1 m2 m3 h0 h1 h2
    simp only [create_event_with_retry, create_event_with_retry_go, h0, h1, h2]
    norm_num
  · intro trig m1 m2 m3 e inv dups fl lg n
    rw [sync_events_of_ne_nil _ _ _ _ _ _ (by simp)]
    simp [processEvent, linkOrCreate, lookupRecord, lookupSnap,
      get_existing_calendar_events, create_event_with_retry,
      create_event_with_retry_go]

/-- C8 witness: three failing attempts at a concrete plan yield the third
message with sleeps `1 × 1` and `1 × 2`, and a concrete exhausted event in
`sync_events` yields one error, no create, and the failure-log row. -/
theorem claim_C8_witness :
    create_event_with_retry ["x", "y", "z"] 3 1 9 =
      (some (Except.error "z"), [1 * 1, 1 * 2]) ∧
    (sync_events "m" (fun _ => ["x", "y", "z"])
        [{ sheet_id := "A1", name := "Standup", start_time := 10, end_time := 20,
           description := "", event_type := "DEFAULT", color := "",
           focus_time := false, row_number := 2 }] 0 []
        { synced_events := [], failed_events := [], sync_log := [],
          calendar := { entries := [], nextId := 0 } }).1.errors = 1 ∧
    (sync_events "m" (fun _ => ["x", "y", "z"])
        [{ sheet_id := "A1", name := "Standup", start_time := 10, end_time := 20,
           description := "", event_type := "DEFAULT", color := "",
           focus_time := false, row_number := 2 }] 0 []
        { synced_events := [], failed_events := [], sync_log := [],
          calendar := { entries := [], nextId := 0 } }).2.failed_events =
      [⟨2, "Standup", "z"⟩] := by
  refine ⟨claim_C8.2.1 ["x", "y", "z"] 1 9 "x" "y" "z" rfl rfl rfl, ?_, ?_⟩
  · exact (claim_C8.2.2 "m" "x" "y" "z"
      { sheet_id := "A1", name := "Standup", start_time := 10, end_time := 20,
        description := "", event_type := "DEFAULT", color := "",
        focus_time := false, row_number := 2 } 0 [] [] [] 0).1
  · exact (claim_C8.2.2 "m" "x" "y" "z"
      { sheet_id := "A1", name := "Standup", start_time := 10, end_time := 20,
        description := "", event_type := "DEFAULT", color := "",
        focus_time := false, row_number := 2 } 0 [] [] [] 0).2.2.1

/-! ### Claims C3 and C4 -/

/-- C3 evidence: a stale sync record whose linked entry has *vanished*
(fetch raises) is deleted and the event recovers with exactly one created,
as the claim states; but a stale record whose linked entry is *cancelled*
falls through WITHOUT the delete (the DELETE lives only in the exception
handler), so after the snapshot excludes the cancelled entry the plain
record INSERT violates the identityKey UNIQUE constraint: the event counts
one error, the stale record survives, and a duplicate calendar entry is left
behind — contradicting the claim for the cancelled branch. -/
theorem claim_C3_code_bug :
    (sync_events "m" (fun _ => [])
        [⟨"A1", "Standup", 10, 20, "", "DEFAULT", "", false, 2⟩] 0 []
        ⟨[⟨"A1", "A1_IIIIIIIIII", 5, "stale", "Standup", "", ""⟩], [], [],
         ⟨[], 9⟩⟩).1.created = 1 ∧
    (sync_events "m" (fun _ => [])
        [⟨"A1", "Standup", 10, 20, "", "DEFAULT", "", false, 2⟩] 0 []
        ⟨[⟨"A1", "A1_IIIIIIIIII", 5, "stale", "Standup", "", ""⟩], [], [],
         ⟨[], 9⟩⟩).1.errors = 0 ∧
    (sync_events "m" (fun _ => [])
        [⟨"A1", "Standup", 10, 20, "", "DEFAULT", "", false, 2⟩] 0 []
        ⟨[⟨"A1", "A1_IIIIIIIIII", 5, "stale", "Standup", "", ""⟩], [], [],
         ⟨[], 9⟩⟩).2.synced_events =
      [⟨"A1", "A1_IIIIIIIIII", 9, "standup|IIIIIIIIII|IIIIIIIIIIIIIIIIIIII",
        "Standup", "IIIIIIIIII", "IIIIIIIIIIIIIIIIIIII"⟩] ∧
    (sync_events "m" (fun _ => [])
        [⟨"A1", "Standup", 10, 20, "", "DEFAULT", "", false, 2⟩] 0 []
        ⟨[⟨"A1", "A1_IIIIIIIIII", 5, "stale", "Standup", "", ""⟩], [], [],
         ⟨[⟨5, "Standup", 10, 20, true⟩], 9⟩⟩).1.errors = 1 ∧
    (sync_events "m" (fun _ => [])
        [⟨"A1", "Standup", 10, 20, "", "DEFAULT", "", false, 2⟩] 0 []
        ⟨[⟨"A1", "A1_IIIIIIIIII", 5, "stale", "Standup", "", ""⟩], [], [],
         ⟨[⟨5, "Standup", 10, 20, true⟩], 9⟩⟩).1.created = 0 ∧
    (sync_events "m" (fun _ => [])
        [⟨"A1", "Standup", 10, 20, "", "DEFAULT", "", false, 2⟩] 0 []
        ⟨[⟨"A1", "A1_IIIIIIIIII", 5, "stale", "Standup", "", ""⟩], [], [],
         ⟨[⟨5, "Standup", 10, 20, true⟩], 9⟩⟩).2.synced_events =
      [⟨"A1", "A1_IIIIIIIIII", 5, "stale", "Standup", "", ""⟩] ∧
    (sync_events "m" (fun _ => [])
        [⟨"A1", "Standup", 10, 20, "", "DEFAULT", "", false, 2⟩] 0 []
        ⟨[⟨"A1", "A1_IIIIIIIIII", 5, "stale", "Standup", "", ""⟩], [], [],
         ⟨[⟨5, "Standup", 10, 20, true⟩], 9⟩⟩).2.calendar.entries.length = 2 ∧
    (sync_events "m" (fun _ => [])
        [⟨"A1", "Standup", 10, 20, "", "DEFAULT", "", false, 2⟩] 0 []
        ⟨[⟨"A1", "A1_IIIIIIIIII", 5, "stale", "Standup", "", ""⟩], [], [],
         ⟨[⟨5, "Standup", 10, 20, true⟩], 9⟩⟩).2.failed_events =
      [⟨2, "Standup", "UNIQUE constraint failed: synced_events"⟩] := by
  decide

/-- C4 evidence: the description pipeline of `to_google_event` strips tags
and decodes the listed entities, but the `<br>` → newline replacement runs
only after tag stripping has already removed every `<br>`, so it is dead:
the description `"a<br>b"` yields `"ab"`, not `"a\nb"` as claimed. -/
theorem claim_C4_code_bug :
    (to_google_event ⟨"A1", "Standup", 10, 20, "a<br>b", "DEFAULT", "",
        false, 2⟩).description = some "ab" ∧
    some ("ab" : String) ≠ some "a\nb" ∧
    (to_google_event ⟨"A1", "Standup", 10, 20, "<b>Hi</b> &amp; bye",
        "DEFAULT", "", false, 2⟩).description = some "Hi & bye" := by
  decide

/-! ### Claim C9 -/

theorem filter_length_lt {α : Type} (p : α → Bool) :
    ∀ (l : List α) (x : α), x ∈ l → p x = false →
    (l.filter p).length < l.length := by
  intro l
  induction l with
  | nil => intro x hx; simp at hx
  | cons a t ih =>
    intro x hx hp
    rcases List.mem_cons.1 hx with rfl | hxt
    · simp only [List.filter_cons, hp, Bool.false_eq_true, if_false,
        List.length_cons]
      have := List.length_filter_le p t
      omega
    · by_cases hpa : p a = true
      · simp only [List.filter_cons, hpa, if_true, List.length_cons]
        have := ih x hxt hp
        omega
      · simp only [Bool.not_eq_true] at hpa
        simp only [List.filter_cons, hpa, Bool.false_eq_true, if_false,
          List.length_cons]
        have := ih x hxt hp
        omega

/-- C9: each of the four store mutations `sync_events` performs
(`INSERT OR REPLACE`, plain `INSERT`, `UPDATE`, `DELETE`) preserves the two
uniqueness invariants, and an `INSERT OR REPLACE` carrying an
already-present `calendar_event_id` replaces the existing mapping — exactly
one row with that id remains and the table does not grow. -/
theorem claim_C9 (store : List SyncRecord) (r : SyncRecord)
    (uid hash nm stIso enIso : String) (hinv : storeInv store) :
    storeInv (upsertRecord store r) ∧
    (∀ store', insertRecord store r = some store' → storeInv store') ∧
    storeInv (updateRecord store uid hash nm stIso enIso) ∧
    storeInv (deleteRecord store uid) ∧
    ((∃ x ∈ store, x.calendar_event_id = r.calendar_event_id) →
      (upsertRecord store r).countP
        (fun x => x.calendar_event_id == r.calendar_event_id) = 1 ∧
      (upsertRecord store r).length ≤ store.length) := by
  refine ⟨?_, ?_, ?_, ?_, ?_⟩
  · rw [upsertRecord, storeInv, List.pairwise_append]
    refine ⟨hinv.filter _, by simp, ?_⟩
    intro a ha b hb
    rw [List.mem_singleton] at hb
    subst hb
    have := (List.mem_filter.1 ha).2
    simp only [Bool.and_eq_true, Bool.not_eq_true', beq_eq_false_iff_ne] at this
    exact this
  · intro store' h
    rw [insertRecord] at h
    by_cases hany : store.any (fun x => x.unique_event_id == r.unique_event_id
        || x.calendar_event_id == r.calendar_event_id) = true
    · rw [if_pos hany] at h; exact absurd h (by simp)
    · rw [Bool.not_eq_true] at hany
      rw [if_neg (by rw [hany]; simp)] at h
      obtain rfl : store ++ [r] = store' := by simpa using h
      rw [storeInv, List.pairwise_append]
      refine ⟨hinv, by simp, ?_⟩
      intro a ha b hb
      rw [List.mem_singleton] at hb
      subst hb
      have := List.any_eq_false.1 hany a ha
      simp only [Bool.or_eq_true, beq_iff_eq] at this
      push_neg at this
      exact this
  · rw [updateRecord, storeInv, List.pairwise_map]
    apply hinv.imp
    intro a b hab
    constructor
    · show (if (a.unique_event_id == uid) = true then _ else a).unique_event_id ≠
        (if (b.unique_event_id == uid) = true then _ else b).unique_event_id
      split <;> split <;> exact hab.1
    · show (if (a.unique_event_id == uid) = true then _ else a).calendar_event_id ≠
        (if (b.unique_event_id == uid) = true then _ else b).calendar_event_id
      split <;> split <;> exact hab.2
  · exact hinv.filter _
  · intro ⟨x, hx, hcal⟩
    constructor
    · rw [upsertRecord, List.countP_append]
      have h0 : (store.filter (fun y => !(y.unique_event_id == r.unique_event_id)
          && !(y.calendar_event_id == r.calendar_event_id))).countP
          (fun y => y.calendar_event_id == r.calendar_event_id) = 0 := by
        rw [List.countP_eq_zero]
        intro a ha
        have := (List.mem_filter.1 ha).2
        simp only [Bool.and_eq_true, Bool.not_eq_true', beq_eq_false_iff_ne] at this
        simp [this.2]
      rw [h0]
      simp
    · rw [upsertRecord, List.length_append]
      have hlt := filter_length_lt
        (fun y => !(y.unique_event_id == r.unique_event_id)
          && !(y.calendar_event_id == r.calendar_event_id)) store x hx
        (by simp [hcal])
      simp only [List.length_cons, List.length_nil]
      omega

/-- C9 witness: a two-row store and an upsert whose record reuses the second
row's calendar id — the invariant is kept and the mapping is replaced, not
duplicated. -/
theorem claim_C9_witness :
    storeInv (upsertRecord
      [⟨"A", "u1", 1, "h1", "n1", "", ""⟩, ⟨"B", "u2", 2, "h2", "n2", "", ""⟩]
      ⟨"C", "u3", 2, "h3", "n3", "", ""⟩) ∧
    (upsertRecord
      [⟨"A", "u1", 1, "h1", "n1", "", ""⟩, ⟨"B", "u2", 2, "h2", "n2", "", ""⟩]
      ⟨"C", "u3", 2, "h3", "n3", "", ""⟩).countP
        (fun x => x.calendar_event_id ==
          (⟨"C", "u3", 2, "h3", "n3", "", ""⟩ : SyncRecord).calendar_event_id) = 1 ∧
    (upsertRecord
      [⟨"A", "u1", 1, "h1", "n1", "", ""⟩, ⟨"B", "u2", 2, "h2", "n2", "", ""⟩]
      ⟨"C", "u3", 2, "h3", "n3", "", ""⟩).length ≤ 2 := by
  have h := claim_C9
    [⟨"A", "u1", 1, "h1", "n1", "", ""⟩, ⟨"B", "u2", 2, "h2", "n2", "", ""⟩]
    ⟨"C", "u3", 2, "h3", "n3", "", ""⟩ "u" "h" "n" "s" "e"
    (by rw [storeInv]; decide)
  have hrep := h.2.2.2.2 ⟨⟨"B", "u2", 2, "h2", "n2", "", ""⟩, by decide, rfl⟩
  exact ⟨h.1, hrep.1, hrep.2⟩

/-! ### Claim C7 -/

/-- C7: a valid event with no prior sync record whose content key is found
in the calendar-snapshot index is relinked: the store gets a
create-or-overwrite record binding its identity key to the snapshot entry's
calendar id with the current content hash, the event counts as skipped (not
created), and the calendar is not touched. -/
theorem claim_C7 (trig : String) (fp : String → List String) (e : CalendarEvent)
    (inv : Nat) (dups : List (String × Nat)) (st : SyncState) (cid : Nat)
    (hno : ∀ r ∈ st.synced_events, r.unique_event_id ≠ unique_id e)
    (hsnap : lookupSnap (get_existing_calendar_events st.calendar
      (runWindowMin [e]) (runWindowMax [e])) (content_key e) = some cid) :
    (sync_events trig fp [e] inv dups st).1.skipped = 1 ∧
    (sync_events trig fp [e] inv dups st).1.created = 0 ∧
    (sync_events trig fp [e] inv dups st).1.updated = 0 ∧
    (sync_events trig fp [e] inv dups st).1.errors = 0 ∧
    (sync_events trig fp [e] inv dups st).2.synced_events =
      upsertRecord st.synced_events (recordFor e cid) ∧
    (sync_events trig fp [e] inv dups st).2.calendar = st.calendar := by
  have hl : lookupRecord st.synced_events (unique_id e) = none := by
    apply List.find?_eq_none.2
    intro r hr
    simpa using hno r hr
  rw [sync_events_of_ne_nil trig fp [e] inv dups st (by simp)]
  dsimp only
  simp only [List.foldl_cons, List.foldl_nil, processEvent, hl, linkOrCreate,
    hsnap]
  simp

/-- C7 witness: an untracked calendar entry with matching summary and start
(id 7) is relinked, skipped, and the calendar is untouched. -/
theorem claim_C7_witness :
    (sync_events "m" (fun _ => [])
      [⟨"A1", "Standup", 10, 20, "", "DEFAULT", "", false, 2⟩] 0 []
      ⟨[], [], [], ⟨[⟨7, "Standup", 10, 20, false⟩], 8⟩⟩).1.skipped = 1 ∧
    (sync_events "m" (fun _ => [])
      [⟨"A1", "Standup", 10, 20, "", "DEFAULT", "", false, 2⟩] 0 []
      ⟨[], [], [], ⟨[⟨7, "Standup", 10, 20, false⟩], 8⟩⟩).1.created = 0 ∧
    (sync_events "m" (fun _ => [])
      [⟨"A1", "Standup", 10, 20, "", "DEFAULT", "", false, 2⟩] 0 []
      ⟨[], [], [], ⟨[⟨7, "Standup", 10, 20, false⟩], 8⟩⟩).2.synced_events =
      upsertRecord [] (recordFor ⟨"A1", "Standup", 10, 20, "", "DEFAULT", "",
        false, 2⟩ 7) ∧
    (sync_events "m" (fun _ => [])
      [⟨"A1", "Standup", 10, 20, "", "DEFAULT", "", false, 2⟩] 0 []
      ⟨[], [], [], ⟨[⟨7, "Standup", 10, 20, false⟩], 8⟩⟩).2.calendar =
      ⟨[⟨7, "Standup", 10, 20, false⟩], 8⟩ := by
  have h := claim_C7 "m" (fun _ => [])
    ⟨"A1", "Standup", 10, 20, "", "DEFAULT", "", false, 2⟩ 0 []
    ⟨[], [], [], ⟨[⟨7, "Standup", 10, 20, false⟩], 8⟩⟩ 7
    (by intro r hr; simp at hr) (by decide)
  exact ⟨h.1, h.2.1, h.2.2.2.2.1, h.2.2.2.2.2⟩

/-! ### Claim C6 -/

/-- C6: two source rows sharing an Event ID but differing in start time
yield two valid events whose identity keys are the distinct strings
`sourceId ++ "_" ++ isoStart`; the duplicate tally maps that Event ID to
occurrence count 2; and reconciling the two events from scratch creates two
independent calendar entries (ids 0 and 1). -/
theorem claim_C6 (trig : String) (inv : Nat) (dups : List (String × Nat))
    (r1 r2 : SheetRow) (s1 en1 s2 en2 : Nat)
    (hid : r1.event_id = r2.event_id) (hid0 : ¬ r1.event_id = "")
    (hs1 : r1.start_parsed = some s1) (he1 : r1.end_parsed = some en1)
    (hs2 : r2.start_parsed = some s2) (he2 : r2.end_parsed = some en2)
    (hss : s1 ≠ s2)
    (hv1 : ¬ pyStrip r1.event_name = "") (hlt1 : s1 < en1)
    (hv2 : ¬ pyStrip r2.event_name = "") (hlt2 : s2 < en2) :
    (read_sheet_events [r1, r2]).1.map unique_id =
      [r1.event_id ++ "_" ++ isoStr s1, r2.event_id ++ "_" ++ isoStr s2] ∧
    (r1.event_id ++ "_" ++ isoStr s1 : String) ≠ r2.event_id ++ "_" ++ isoStr s2 ∧
    lookupTally (read_sheet_events [r1, r2]).2.2 r1.event_id = some 2 ∧
    (sync_events trig (fun _ => []) (read_sheet_events [r1, r2]).1 inv dups
      initialState).1.created = 2 ∧
    (sync_events trig (fun _ => []) (read_sheet_events [r1, r2]).1 inv dups
      initialState).2.calendar.entries.map (fun en => en.id) = [0, 1] := by
  have hid0' : (r1.event_id == "") = false := by
    simpa using hid0
  have hid20 : ¬ r2.event_id = "" := by rw [← hid]; exact hid0
  have hid20' : (r2.event_id == "") = false := by simpa using hid20
  have hval1 : is_valid ⟨r1.event_id, r1.event_name, s1, en1, r1.description,
      r1.event_type, r1.color, pyLower r1.focus_time == "yes", 2⟩ = true := by
    simp [is_valid, hv1, hlt1]
  have hval2 : is_valid ⟨r1.event_id, r2.event_name, s2, en2, r2.description,
      r2.event_type, r2.color, pyLower r2.focus_time == "yes", 3⟩ = true := by
    simp [is_valid, hv2, hlt2]
  have hread : read_sheet_events [r1, r2] =
      ([⟨r1.event_id, r1.event_name, s1, en1, r1.description, r1.event_type,
         r1.color, pyLower r1.focus_time == "yes", 2⟩,
        ⟨r2.event_id, r2.event_name, s2, en2, r2.description, r2.event_type,
         r2.color, pyLower r2.focus_time == "yes", 3⟩], [],
       [(r1.event_id, 2)]) := by
    simp [read_sheet_events, bumpTally, hid0, hid20, hs1, he1, hs2, he2,
      hval1, hval2, ← hid]
  have hne : (r1.event_id ++ "_" ++ isoStr s1 : String) ≠
      r2.event_id ++ "_" ++ isoStr s2 := by
    have := unique_id_ne_of_start
      ⟨r1.event_id, r1.event_name, s1, en1, r1.description, r1.event_type,
       r1.color, pyLower r1.focus_time == "yes", 2⟩
      ⟨r2.event_id, r2.event_name, s2, en2, r2.description, r2.event_type,
       r2.color, pyLower r2.focus_time == "yes", 3⟩ hid hss
    simpa [unique_id] using this
  have hpw : [(⟨r1.event_id, r1.event_name, s1, en1, r1.description,
      r1.event_type, r1.color, pyLower r1.focus_time == "yes", 2⟩ :
        CalendarEvent),
      ⟨r2.event_id, r2.event_name, s2, en2, r2.description, r2.event_type,
       r2.color, pyLower r2.focus_time == "yes", 3⟩].Pairwise
      (fun a b => unique_id a ≠ unique_id b) := by
    refine List.pairwise_cons.2 ⟨?_, by simp⟩
    intro b hb
    rw [List.mem_singleton] at hb
    subst hb
    exact unique_id_ne_of_start _ _ hid hss
  have hsnap0 : get_existing_calendar_events initialState.calendar
      (runWindowMin [(⟨r1.event_id, r1.event_name, s1, en1, r1.description,
        r1.event_type, r1.color, pyLower r1.focus_time == "yes", 2⟩ :
          CalendarEvent),
        ⟨r2.event_id, r2.event_name, s2, en2, r2.description, r2.event_type,
         r2.color, pyLower r2.focus_time == "yes", 3⟩])
      (runWindowMax [(⟨r1.event_id, r1.event_name, s1, en1, r1.description,
        r1.event_type, r1.color, pyLower r1.focus_time == "yes", 2⟩ :
          CalendarEvent),
        ⟨r2.event_id, r2.event_name, s2, en2, r2.description, r2.event_type,
         r2.color, pyLower r2.focus_time == "yes", 3⟩]) = [] := rfl
  have hfold := foldl_create (fun _ => []) [] (fun _ => rfl)
    [⟨r1.event_id, r1.event_name, s1, en1, r1.description, r1.event_type,
      r1.color, pyLower r1.focus_time == "yes", 2⟩,
     ⟨r2.event_id, r2.event_name, s2, en2, r2.description, r2.event_type,
      r2.color, pyLower r2.focus_time == "yes", 3⟩] ⟨0, 0, 0, 0⟩ initialState
    hpw (by intro e _ r hr; simp [initialState] at hr)
    (by intro r hr; simp [initialState] at hr) (fun e _ => rfl)
  have h1 := sync_events_of_ne_nil trig (fun _ => [])
    [⟨r1.event_id, r1.event_name, s1, en1, r1.description, r1.event_type,
      r1.color, pyLower r1.focus_time == "yes", 2⟩,
     ⟨r2.event_id, r2.event_name, s2, en2, r2.description, r2.event_type,
      r2.color, pyLower r2.focus_time == "yes", 3⟩] inv dups initialState
    (by simp)
  simp only [hsnap0, hfold] at h1
  refine ⟨?_, hne, ?_, ?_, ?_⟩
  · rw [hread]; simp [unique_id]
  · rw [hread]; simp [lookupTally]
  · rw [hread]
    dsimp only
    rw [h1]
    simp
  · rw [hread]
    dsimp only
    rw [h1]
    simp [afterCreates, createPush, newEntry, initialState]

/-- C6 witness: two concrete rows with Event ID `"E1"` and starts 10 and 30. -/
theorem claim_C6_witness :
    (read_sheet_events
      [⟨"E1", "Standup", some 10, some 20, "", "DEFAULT", "", ""⟩,
       ⟨"E1", "Standup", some 30, some 40, "", "DEFAULT", "", ""⟩]).1.map
      unique_id = ["E1" ++ "_" ++ isoStr 10, "E1" ++ "_" ++ isoStr 30] ∧
    ("E1" ++ "_" ++ isoStr 10 : String) ≠ "E1" ++ "_" ++ isoStr 30 ∧
    lookupTally (read_sheet_events
      [⟨"E1", "Standup", some 10, some 20, "", "DEFAULT", "", ""⟩,
       ⟨"E1", "Standup", some 30, some 40, "", "DEFAULT", "", ""⟩]).2.2 "E1" =
      some 2 ∧
    (sync_events "m" (fun _ => []) (read_sheet_events
      [⟨"E1", "Standup", some 10, some 20, "", "DEFAULT", "", ""⟩,
       ⟨"E1", "Standup", some 30, some 40, "", "DEFAULT", "", ""⟩]).1 0 []
      initialState).1.created = 2 := by
  have h := claim_C6 "m" 0 []
    ⟨"E1", "Standup", some 10, some 20, "", "DEFAULT", "", ""⟩
    ⟨"E1", "Standup", some 30, some 40, "", "DEFAULT", "", ""⟩
    10 20 30 40 rfl (by decide) rfl rfl rfl rfl (by decide) (by decide)
    (by decide) (by decide) (by decide)
  exact ⟨h.1, h.2.1, h.2.2.1, h.2.2.2.1⟩

/-! ### Claim C5 -/

/-- When a linked record's entry is fetched live but the stored hash
differs, the event is updated in place. -/
theorem updateStep (fp : String → List String) (snap : List (String × Nat))
    (stats : RunStats) (st : SyncState) (e : CalendarEvent) (r : SyncRecord)
    (en : CalEntry)
    (hlook : lookupRecord st.synced_events (unique_id e) = some r)
    (hget : calendarGet st.calendar r.calendar_event_id = some en)
    (hcanc : en.cancelled = false)
    (hhash : r.event_hash ≠ content_hash e) :
    processEvent fp snap (stats, st) e =
      ({ stats with updated := stats.updated + 1 },
       { st with
           calendar := calendarUpdate st.calendar r.calendar_event_id e,
           synced_events := updateRecord st.synced_events (unique_id e)
             (content_hash e) e.name (isoStr e.start_time)
             (isoStr e.end_time) }) := by
  simp only [processEvent, hlook]
  simp only [hget]
  have hb : (r.event_hash == content_hash e) = false := beq_eq_false_iff_ne.2 hhash
  simp [hcanc, hb]

theorem lookupSnap_none (cal : Calendar) (a b : Nat) (k : String)
    (h : ∀ en ∈ cal.entries, snapKey en ≠ k) :
    lookupSnap (get_existing_calendar_events cal a b) k = none := by
  have haux : ∀ (pairs : List (String × Nat)), (∀ p ∈ pairs, p.1 ≠ k) →
      lookupSnap pairs k = none := by
    intro pairs
    induction pairs with
    | nil => intro _; rfl
    | cons p t ih =>
      intro hp
      have h1 : (p.1 == k) = false :=
        beq_eq_false_iff_ne.2 (hp p (List.mem_cons_self p t))
      simp only [lookupSnap, List.foldl_cons, h1, Bool.false_eq_true, if_false]
      exact ih (fun q hq => hp q (List.mem_cons_of_mem p hq))
  apply haux
  intro p hp
  rw [get_existing_calendar_events] at hp
  obtain ⟨en, hen, rfl⟩ := List.mem_map.1 hp
  exact h en (List.mem_filter.1 hen).1

theorem sync_skip_of_description_change (trig : String) (fp : String → List String) (inv : Nat)
    (dups : List (String × Nat)) (st : SyncState) (e : CalendarEvent)
    (d' : String) (hgood : goodFor st e) :
    (sync_events trig fp [{ e with description := d' }] inv dups st).1.skipped = 1 ∧
    (sync_events trig fp [{ e with description := d' }] inv dups st).1.updated = 0 ∧
    (sync_events trig fp [{ e with description := d' }] inv dups st).1.created = 0 ∧
    (sync_events trig fp [{ e with description := d' }] inv dups st).2.synced_events =
      st.synced_events ∧
    (sync_events trig fp [{ e with description := d' }] inv dups st).2.calendar =
      st.calendar := by
  have hgood' : goodFor st { e with description := d' } := hgood
  have hstep := skipStep fp (get_existing_calendar_events st.calendar
    (runWindowMin [{ e with description := d' }])
    (runWindowMax [{ e with description := d' }])) ⟨0, 0, 0, 0⟩ st
    { e with description := d' } hgood'
  rw [sync_events_of_ne_nil trig fp _ inv dups st (by simp)]
  dsimp only
  simp only [List.foldl_cons, List.foldl_nil, hstep]
  simp

theorem sync_update_of_name_change (trig : String) (fp : String → List String) (inv : Nat)
    (dups : List (String × Nat)) (st : SyncState) (e : CalendarEvent)
    (n' : String) (hgood : goodFor st e)
    (hb : '|' ∉ (normName e).data)
    (hb' : '|' ∉ (normName { e with name := n' }).data)
    (hnn : normName { e with name := n' } ≠ normName e) :
    (sync_events trig fp [{ e with name := n' }] inv dups st).1.updated = 1 ∧
    (sync_events trig fp [{ e with name := n' }] inv dups st).1.created = 0 ∧
    (sync_events trig fp [{ e with name := n' }] inv dups st).1.skipped = 0 ∧
    (sync_events trig fp [{ e with name := n' }] inv dups st).1.errors = 0 := by
  obtain ⟨r, hlook, hhash, en, hget, hcanc⟩ := hgood
  have hne : content_hash { e with name := n' } ≠ content_hash e :=
    content_hash_ne_of_name _ _ hb' hb hnn
  have hstep := updateStep fp (get_existing_calendar_events st.calendar
    (runWindowMin [{ e with name := n' }])
    (runWindowMax [{ e with name := n' }])) ⟨0, 0, 0, 0⟩ st
    { e with name := n' } r en hlook hget hcanc
    (by rw [hhash]; exact fun hcontra => hne hcontra.symm)
  rw [sync_events_of_ne_nil trig fp _ inv dups st (by simp)]
  dsimp only
  simp only [List.foldl_cons, List.foldl_nil, hstep]
  simp

theorem sync_update_of_end_change (trig : String) (fp : String → List String) (inv : Nat)
    (dups : List (String × Nat)) (st : SyncState) (e : CalendarEvent)
    (t' : Nat) (hgood : goodFor st e) (ht : t' ≠ e.end_time) :
    (sync_events trig fp [{ e with end_time := t' }] inv dups st).1.updated = 1 ∧
    (sync_events trig fp [{ e with end_time := t' }] inv dups st).1.created = 0 ∧
    (sync_events trig fp [{ e with end_time := t' }] inv dups st).1.skipped = 0 ∧
    (sync_events trig fp [{ e with end_time := t' }] inv dups st).1.errors = 0 := by
  obtain ⟨r, hlook, hhash, en, hget, hcanc⟩ := hgood
  have hne : content_hash { e with end_time := t' } ≠ content_hash e :=
    content_hash_ne_of_end _ _ rfl rfl ht
  have hstep := updateStep fp (get_existing_calendar_events st.calendar
    (runWindowMin [{ e with end_time := t' }])
    (runWindowMax [{ e with end_time := t' }])) ⟨0, 0, 0, 0⟩ st
    { e with end_time := t' } r en hlook hget hcanc
    (by rw [hhash]; exact fun hcontra => hne hcontra.symm)
  rw [sync_events_of_ne_nil trig fp _ inv dups st (by simp)]
  dsimp only
  simp only [List.foldl_cons, List.foldl_nil, hstep]
  simp

theorem sync_create_of_start_change (trig : String) (inv : Nat) (dups : List (String × Nat))
    (fl : List FailedRow) (lg : List SyncLogEntry) (e : CalendarEvent)
    (cid nid : Nat) (ents : List CalEntry) (s' : Nat)
    (hs : s' ≠ e.start_time)
    (hkey : ∀ en ∈ ents, snapKey en ≠ content_key { e with start_time := s' })
    (hcid : cid ≠ nid) :
    (sync_events trig (fun _ => []) [{ e with start_time := s' }] inv dups
      ⟨[recordFor e cid], fl, lg, ⟨ents, nid⟩⟩).1.created = 1 ∧
    (sync_events trig (fun _ => []) [{ e with start_time := s' }] inv dups
      ⟨[recordFor e cid], fl, lg, ⟨ents, nid⟩⟩).1.updated = 0 ∧
    (sync_events trig (fun _ => []) [{ e with start_time := s' }] inv dups
      ⟨[recordFor e cid], fl, lg, ⟨ents, nid⟩⟩).1.skipped = 0 ∧
    (sync_events trig (fun _ => []) [{ e with start_time := s' }] inv dups
      ⟨[recordFor e cid], fl, lg, ⟨ents, nid⟩⟩).1.errors = 0 := by
  have huid : unique_id e ≠ unique_id { e with start_time := s' } :=
    unique_id_ne_of_start e { e with start_time := s' } rfl
      (fun hcontra => hs hcontra.symm)
  have hl : lookupRecord ([recordFor e cid]) (unique_id { e with start_time := s' }) = none := by
    apply List.find?_eq_none.2
    intro r hr
    rw [List.mem_singleton] at hr
    subst hr
    simpa [recordFor] using huid
  have hsnap := lookupSnap_none ⟨ents, nid⟩
    (runWindowMin [{ e with start_time := s' }])
    (runWindowMax [{ e with start_time := s' }])
    (content_key { e with start_time := s' }) hkey
  have hstep := createStep (fun _ => []) (get_existing_calendar_events
    ⟨ents, nid⟩ (runWindowMin [{ e with start_time := s' }])
    (runWindowMax [{ e with start_time := s' }])) ⟨0, 0, 0, 0⟩
    ⟨[recordFor e cid], fl, lg, ⟨ents, nid⟩⟩ { e with start_time := s' }
    hl hsnap rfl
    (by intro r hr; rw [List.mem_singleton] at hr; subst hr; simpa [recordFor] using hcid)
  rw [sync_events_of_ne_nil trig (fun _ => []) _ inv dups _ (by simp)]
  dsimp only
  simp only [List.foldl_cons, List.foldl_nil, hstep]
  simp

/-- C5 counterexample: an already-synced event whose start time alone is
changed produces zero updates and one create on the next run (its identity
key changed, so the engine creates a new entry instead of updating) —
refuting "changing the name or either time produces exactly one update". -/
theorem claim_C5_counterexample :
    (sync_events "m" (fun _ => [])
      [⟨"A1", "Standup", 11, 20, "", "DEFAULT", "", false, 2⟩] 0 []
      ⟨[recordFor ⟨"A1", "Standup", 10, 20, "", "DEFAULT", "", false, 2⟩ 0],
       [], [],
       ⟨[newEntry ⟨"A1", "Standup", 10, 20, "", "DEFAULT", "", false, 2⟩ 0],
        1⟩⟩).1.updated = 0 ∧
    (sync_events "m" (fun _ => [])
      [⟨"A1", "Standup", 11, 20, "", "DEFAULT", "", false, 2⟩] 0 []
      ⟨[recordFor ⟨"A1", "Standup", 10, 20, "", "DEFAULT", "", false, 2⟩ 0],
       [], [],
       ⟨[newEntry ⟨"A1", "Standup", 10, 20, "", "DEFAULT", "", false, 2⟩ 0],
        1⟩⟩).1.created = 1 := by
  decide

/-- C5 (amended): the content hash is a deterministic function of exactly
the normalized name and the two instants — any two events agreeing there
hash identically regardless of every other field; consequently, for an
already-synced event, changing only the description yields a skip and no
state change; changing the name (to a differently-normalized one) or the
end time yields exactly one update; changing the start time changes the
identity key and instead yields exactly one create and no update. -/
theorem claim_C5 :
    (∀ e1 e2 : CalendarEvent, normName e1 = normName e2 →
      e1.start_time = e2.start_time → e1.end_time = e2.end_time →
      content_hash e1 = content_hash e2) ∧
    (∀ (trig : String) (fp : String → List String) (inv : Nat)
      (dups : List (String × Nat)) (st : SyncState) (e : CalendarEvent)
      (d' : String), goodFor st e →
      (sync_events trig fp [{ e with description := d' }] inv dups st).1.skipped = 1 ∧
      (sync_events trig fp [{ e with description := d' }] inv dups st).1.updated = 0 ∧
      (sync_events trig fp [{ e with description := d' }] inv dups st).1.created = 0 ∧
      (sync_events trig fp [{ e with description := d' }] inv dups st).2.synced_events =
        st.synced_events ∧
      (sync_events trig fp [{ e with description := d' }] inv dups st).2.calendar =
        st.calendar) ∧
    (∀ (trig : String) (fp : String → List String) (inv : Nat)
      (dups : List (String × Nat)) (st : SyncState) (e : CalendarEvent)
      (n' : String), goodFor st e →
      '|' ∉ (normName e).data →
      '|' ∉ (normName { e with name := n' }).data →
      normName { e with name := n' } ≠ normName e →
      (sync_events trig fp [{ e with name := n' }] inv dups st).1.updated = 1 ∧
      (sync_events trig fp [{ e with name := n' }] inv dups st).1.created = 0 ∧
      (sync_events trig fp [{ e with name := n' }] inv dups st).1.skipped = 0 ∧
      (sync_events trig fp [{ e with name := n' }] inv dups st).1.errors = 0) ∧
    (∀ (trig : String) (fp : String → List String) (inv : Nat)
      (dups : List (String × Nat)) (st : SyncState) (e : CalendarEvent)
      (t' : Nat), goodFor st e → t' ≠ e.end_time →
      (sync_events trig fp [{ e with end_time := t' }] inv dups st).1.updated = 1 ∧
      (sync_events trig fp [{ e with end_time := t' }] inv dups st).1.created = 0 ∧
      (sync_events trig fp [{ e with end_time := t' }] inv dups st).1.skipped = 0 ∧
      (sync_events trig fp [{ e with end_time := t' }] inv dups st).1.errors = 0) ∧
    (∀ (trig : String) (inv : Nat) (dups : List (String × Nat))
      (fl : List FailedRow) (lg : List SyncLogEntry) (e : CalendarEvent)
      (cid nid : Nat) (ents : List CalEntry) (s' : Nat),
      s' ≠ e.start_time →
      (∀ en ∈ ents, snapKey en ≠ content_key { e with start_time := s' }) →
      cid ≠ nid →
      (sync_events trig (fun _ => []) [{ e with start_time := s' }] inv dups
        ⟨[recordFor e cid], fl, lg, ⟨ents, nid⟩⟩).1.created = 1 ∧
      (sync_events trig (fun _ => []) [{ e with start_time := s' }] inv dups
        ⟨[recordFor e cid], fl, lg, ⟨ents, nid⟩⟩).1.updated = 0 ∧
      (sync_events trig (fun _ => []) [{ e with start_time := s' }] inv dups
        ⟨[recordFor e cid], fl, lg, ⟨ents, nid⟩⟩).1.skipped = 0 ∧
      (sync_events trig (fun _ => []) [{ e with start_time := s' }] inv dups
        ⟨[recordFor e cid], fl, lg, ⟨ents, nid⟩⟩).1.errors = 0) :=
  ⟨content_hash_congr, sync_skip_of_description_change,
   sync_update_of_name_change, sync_update_of_end_change,
   sync_create_of_start_change⟩

/-- C5 witness: for a concrete synced event, a description-only change
skips, an end-time change updates exactly once, and a start-time change
creates exactly once. -/
theorem claim_C5_witness :
    (sync_events "m" (fun _ => [])
      [⟨"A1", "Standup", 10, 20, "notes", "DEFAULT", "", false, 2⟩] 0 []
      ⟨[recordFor ⟨"A1", "Standup", 10, 20, "", "DEFAULT", "", false, 2⟩ 0],
       [], [],
       ⟨[newEntry ⟨"A1", "Standup", 10, 20, "", "DEFAULT", "", false, 2⟩ 0],
        1⟩⟩).1.skipped = 1 ∧
    (sync_events "m" (fun _ => [])
      [⟨"A1", "Standup", 10, 25, "", "DEFAULT", "", false, 2⟩] 0 []
      ⟨[recordFor ⟨"A1", "Standup", 10, 20, "", "DEFAULT", "", false, 2⟩ 0],
       [], [],
       ⟨[newEntry ⟨"A1", "Standup", 10, 20, "", "DEFAULT", "", false, 2⟩ 0],
        1⟩⟩).1.updated = 1 ∧
    (sync_events "m" (fun _ => [])
      [⟨"A1", "Standup", 11, 20, "", "DEFAULT", "", false, 2⟩] 0 []
      ⟨[recordFor ⟨"A1", "Standup", 10, 20, "", "DEFAULT", "", false, 2⟩ 0],
       [], [],
       ⟨[newEntry ⟨"A1", "Standup", 10, 20, "", "DEFAULT", "", false, 2⟩ 0],
        1⟩⟩).1.created = 1 := by
  have hgood : goodFor
      ⟨[recordFor ⟨"A1", "Standup", 10, 20, "", "DEFAULT", "", false, 2⟩ 0],
       [], [],
       ⟨[newEntry ⟨"A1", "Standup", 10, 20, "", "DEFAULT", "", false, 2⟩ 0],
        1⟩⟩
      ⟨"A1", "Standup", 10, 20, "", "DEFAULT", "", false, 2⟩ :=
    ⟨recordFor ⟨"A1", "Standup", 10, 20, "", "DEFAULT", "", false, 2⟩ 0,
     rfl, rfl,
     newEntry ⟨"A1", "Standup", 10, 20, "", "DEFAULT", "", false, 2⟩ 0,
     rfl, rfl⟩
  refine ⟨?_, ?_, ?_⟩
  · exact (claim_C5.2.1 "m" (fun _ => []) 0 [] _
      ⟨"A1", "Standup", 10, 20, "", "DEFAULT", "", false, 2⟩ "notes" hgood).1
  · exact (claim_C5.2.2.2.1 "m" (fun _ => []) 0 [] _
      ⟨"A1", "Standup", 10, 20, "", "DEFAULT", "", false, 2⟩ 25 hgood
      (by decide)).1
  · exact (claim_C5.2.2.2.2 "m" 0 [] [] []
      ⟨"A1", "Standup", 10, 20, "", "DEFAULT", "", false, 2⟩ 0 1
      [newEntry ⟨"A1", "Standup", 10, 20, "", "DEFAULT", "", false, 2⟩ 0] 11
      (by decide) (by decide) (by decide)).1
